import Mathlib

/-!
Shallow embedding of `src/backend/weather_service.py` (the Weather
Aggregation & Advisory Engine) and proofs about it.

Conventions of the embedding:
* Python floats carrying metric quantities (temperatures, humidity,
  rainfall, wind speed, probabilities) are embedded as `ℚ`; all the
  arithmetic the source performs on them (`+`, `/`, `min`, `max`,
  comparisons) is exact on the decimal literals involved.
* Python `dict` access `d['k']` on a possibly-absent key is embedded as
  an `Option` bind (absence = the `KeyError` path); `d.get('k', v)` is
  `Option.getD`.
* `datetime.fromtimestamp(dt).isoformat()` renders an epoch instant;
  the aggregator's grouping key `item['datetime'][:10]` (the calendar
  date of the instant) is embedded as the day number `dt / 86400`.
* The insertion-ordered Python `dict` is embedded as an association
  list in which updating an existing key keeps its position and a new
  key is appended at the end, and `max(d, key=d.get)` as a left fold
  that replaces the current best only on a strictly greater count.
-/

/-- Python's `str.lower()`. -/
def pyLower (s : String) : String := String.mk (s.toList.map Char.toLower)

/-- Helper for `pyTitle`: the Boolean records whether the previous
character was alphabetic. -/
def pyTitleAux : Bool → List Char → List Char
  | _, [] => []
  | prev, c :: rest =>
      (if c.isAlpha then (if prev then c.toLower else c.toUpper) else c)
        :: pyTitleAux c.isAlpha rest

/-- Python's `str.title()`: first letter of each alphabetic run upper-cased,
the rest lower-cased. -/
def pyTitle (s : String) : String := String.mk (pyTitleAux false s.toList)

/-- Substring test on character lists (helper for `pyIn`). -/
def listContainsSub (sub : List Char) : List Char → Bool
  | [] => sub.isEmpty
  | c :: rest => sub.isPrefixOf (c :: rest) || listContainsSub sub rest

/-- Python's `sub in s` substring test. -/
def pyIn (sub s : String) : Bool := listContainsSub sub.toList s.toList

/-! ## Raw provider payloads (inputs of the Normalizer)

Each field that the source reads with `d['k']` may be absent in the raw
payload, hence every leaf is an `Option`. -/

/-- The nested `main{...}` object of a raw observation. -/
structure RawMain where
  temp : Option ℚ
  feels_like : Option ℚ
  humidity : Option ℚ
  pressure : Option ℚ
deriving DecidableEq, Repr

/-- One entry of the raw `weather[]` array. -/
structure RawWeatherEntry where
  main : Option String
  description : Option String
  icon : Option String
deriving DecidableEq, Repr

/-- The raw `wind{...}` object. -/
structure RawWind where
  speed : Option ℚ
  deg : Option ℚ
deriving DecidableEq, Repr

/-- The raw `rain{...}` / `snow{...}` object with its `3h` key. -/
structure RawVolume where
  h3 : Option ℚ
deriving DecidableEq, Repr

/-- The raw `sys{...}` object of a current observation. -/
structure RawSys where
  country : Option String
  sunrise : Option Nat
  sunset : Option Nat
deriving DecidableEq, Repr

/-- One raw 3-hour forecast entry (an element of the provider's `list[]`). -/
structure RawForecastItem where
  dt : Option Nat
  main : Option RawMain
  weather : Option (List RawWeatherEntry)
  wind : Option RawWind
  pop : Option ℚ
  rain : Option RawVolume
  snow : Option RawVolume
deriving DecidableEq, Repr

/-- A raw current-weather observation. -/
structure RawCurrent where
  dt : Option Nat
  main : Option RawMain
  weather : Option (List RawWeatherEntry)
  wind : Option RawWind
  visibility : Option ℚ
  uvi : Option ℚ
  name : Option String
  sys : Option RawSys
deriving DecidableEq, Repr

/-! ## Canonical records (outputs of the Normalizer) -/

/-- One formatted forecast timestep, as produced by `_format_forecast_data`.
The source stores `datetime.fromtimestamp(item['dt']).isoformat()`; the
embedding keeps the epoch instant `dt` itself. -/
structure FormattedItem where
  dt : Nat
  temperature : ℚ
  feels_like : ℚ
  humidity : ℚ
  pressure : ℚ
  description : String
  main : String
  icon : String
  wind_speed : ℚ
  wind_direction : ℚ
  precipitation_probability : ℚ
  rain : ℚ
  snow : ℚ
deriving DecidableEq, Repr

/-- The formatted current-weather record, as produced by
`_format_current_weather` (sunrise/sunset/timestamp kept as epoch instants). -/
structure CurrentWeather where
  temperature : ℚ
  feels_like : ℚ
  humidity : ℚ
  pressure : ℚ
  description : String
  main : String
  icon : String
  wind_speed : ℚ
  wind_direction : ℚ
  visibility : ℚ
  uv_index : ℚ
  city_name : String
  country : String
  sunrise : Nat
  sunset : Nat
  timestamp : Nat
deriving DecidableEq, Repr

/-- The `weather[0]` entry of a raw payload, when it exists. -/
def rawWeatherHead (weather : Option (List RawWeatherEntry)) :
    Option RawWeatherEntry :=
  weather.bind List.head?

/-- `WeatherService._format_current_weather`: every chained `data['a']['b']`
access is an `Option` bind (its `none` is the `KeyError` the source would
raise), every `.get('k', v)` an `Option.getD`; the record is produced
exactly when every field the source reads unconditionally is present. -/
def format_current_weather (data : RawCurrent) : Option CurrentWeather :=
  match data.main.bind RawMain.temp, data.main.bind RawMain.feels_like,
      data.main.bind RawMain.humidity, data.main.bind RawMain.pressure,
      (rawWeatherHead data.weather).bind RawWeatherEntry.description,
      (rawWeatherHead data.weather).bind RawWeatherEntry.main,
      (rawWeatherHead data.weather).bind RawWeatherEntry.icon,
      data.wind, data.wind.bind RawWind.speed, data.name,
      data.sys.bind RawSys.country, data.sys.bind RawSys.sunrise,
      data.sys.bind RawSys.sunset, data.dt with
  | some temperature, some feels_like, some humidity, some pressure,
      some description, some mainCond, some icon,
      some wind, some wind_speed, some city_name,
      some country, some sunrise, some sunset, some dt =>
    some {
      temperature := temperature
      feels_like := feels_like
      humidity := humidity
      pressure := pressure
      description := pyTitle description
      main := mainCond
      icon := icon
      wind_speed := wind_speed
      wind_direction := wind.deg.getD 0
      visibility := data.visibility.getD 0 / 1000
      uv_index := data.uvi.getD 0
      city_name := city_name
      country := country
      sunrise := sunrise
      sunset := sunset
      timestamp := dt }
  | _, _, _, _, _, _, _, _, _, _, _, _, _, _ => none

/-- Formatting of one entry of `_format_forecast_data`'s loop. -/
def format_forecast_item (item : RawForecastItem) : Option FormattedItem :=
  match item.dt, item.main.bind RawMain.temp, item.main.bind RawMain.feels_like,
      item.main.bind RawMain.humidity, item.main.bind RawMain.pressure,
      (rawWeatherHead item.weather).bind RawWeatherEntry.description,
      (rawWeatherHead item.weather).bind RawWeatherEntry.main,
      (rawWeatherHead item.weather).bind RawWeatherEntry.icon,
      item.wind, item.wind.bind RawWind.speed with
  | some dt, some temperature, some feels_like, some humidity, some pressure,
      some description, some mainCond, some icon, some wind, some wind_speed =>
    some {
      dt := dt
      temperature := temperature
      feels_like := feels_like
      humidity := humidity
      pressure := pressure
      description := pyTitle description
      main := mainCond
      icon := icon
      wind_speed := wind_speed
      wind_direction := wind.deg.getD 0
      precipitation_probability := item.pop.getD 0 * 100
      rain := (item.rain.getD ⟨none⟩).h3.getD 0
      snow := (item.snow.getD ⟨none⟩).h3.getD 0 }
  | _, _, _, _, _, _, _, _, _, _ => none

/-- `WeatherService._format_forecast_data`: formats each entry of the
payload's `list[]`; an entry missing a required field aborts the whole
call (the `KeyError` path). -/
def format_forecast_data (entries : List RawForecastItem) :
    Option (List FormattedItem) :=
  entries.mapM format_forecast_item

/-! ## Forecast Aggregator (`_get_forecast_summary`) -/

/-- The aggregator's grouping key `item['datetime'][:10]`: the calendar
date of the instant, embedded as its day number. -/
def dateOf (item : FormattedItem) : Nat := item.dt / 86400

/-- The per-date running accumulator of `_get_forecast_summary`
(`avg_humidity` holds the running humidity sum until finalization,
exactly as in the source). -/
structure DailyAcc where
  date : Nat
  min_temp : ℚ
  max_temp : ℚ
  total_rain : ℚ
  avg_humidity : ℚ
  conditions : List String
  count : Nat
deriving DecidableEq, Repr

/-- The accumulator a date is initialized with on first sight
(`min_temp = max_temp = item['temperature']`, the rest zero/empty). -/
def initDailyAcc (d : Nat) (item : FormattedItem) : DailyAcc :=
  { date := d
    min_temp := item.temperature
    max_temp := item.temperature
    total_rain := 0
    avg_humidity := 0
    conditions := []
    count := 0 }

/-- The unconditional per-item update of the loop body. -/
def updateDailyAcc (item : FormattedItem) (s : DailyAcc) : DailyAcc :=
  { s with
    min_temp := min s.min_temp item.temperature
    max_temp := max s.max_temp item.temperature
    total_rain := s.total_rain + item.rain
    avg_humidity := s.avg_humidity + item.humidity
    conditions := s.conditions ++ [item.main]
    count := s.count + 1 }

/-- One iteration of the grouping loop over the insertion-ordered date
map: an existing date's entry is updated in place, a new date is
appended at the end (Python dict insertion order). -/
def insertForecastItem (accs : List DailyAcc) (item : FormattedItem) :
    List DailyAcc :=
  if accs.any (fun a => a.date = dateOf item) then
    accs.map (fun a => if a.date = dateOf item then updateDailyAcc item a else a)
  else
    accs ++ [updateDailyAcc item (initDailyAcc (dateOf item) item)]

/-- The whole grouping pass of `_get_forecast_summary`. -/
def buildDailyAccs (forecast : List FormattedItem) : List DailyAcc :=
  forecast.foldl insertForecastItem []

/-- One step of building `condition_counts`: an insertion-ordered counting
map over condition names. -/
def bumpCount (counts : List (String × Nat)) (c : String) :
    List (String × Nat) :=
  match counts with
  | [] => [(c, 1)]
  | (k, v) :: rest =>
      if k = c then (k, v + 1) :: rest else (k, v) :: bumpCount rest c

/-- `condition_counts` of the finalization loop:
`condition_counts[c] = condition_counts.get(c, 0) + 1` over an
insertion-ordered dict. -/
def condition_counts (conds : List String) : List (String × Nat) :=
  conds.foldl bumpCount []

/-- One comparison step of Python's `max(..., key=...)`: the current best
is replaced only on a strictly greater count. -/
def pickMax (best p : String × Nat) : String × Nat :=
  if best.2 < p.2 then p else best

/-- Python's `max(condition_counts, key=condition_counts.get)`: scan in
insertion order, replacing the current best only on a strictly greater
count, so the first key attaining the maximum wins. `none` on the empty
dict (where Python would raise). -/
def pyMaxByCount : List (String × Nat) → Option String
  | [] => none
  | kv :: rest => some (rest.foldl pickMax kv).1

/-- One finalized daily summary. -/
structure DailySummary where
  date : Nat
  min_temp : ℚ
  max_temp : ℚ
  total_rain : ℚ
  avg_humidity : ℚ
  main_condition : String
deriving DecidableEq, Repr

/-- The finalization loop body: divide the humidity sum by the count and
select the dominant condition. -/
def finalizeDailyAcc (s : DailyAcc) : DailySummary :=
  { date := s.date
    min_temp := s.min_temp
    max_temp := s.max_temp
    total_rain := s.total_rain
    avg_humidity := s.avg_humidity / (s.count : ℚ)
    main_condition := (pyMaxByCount (condition_counts s.conditions)).getD "" }

/-- `_get_forecast_summary` returns the empty dict `{}` on an empty
forecast and a list of summaries otherwise; the embedding keeps the two
Python shapes distinct. -/
inductive SummaryResult where
  | emptyDict : SummaryResult
  | summaries : List DailySummary → SummaryResult
deriving DecidableEq, Repr

/-- `WeatherService._get_forecast_summary`. -/
def get_forecast_summary (forecast : List FormattedItem) : SummaryResult :=
  if forecast = [] then SummaryResult.emptyDict
  else SummaryResult.summaries ((buildDailyAccs forecast).map finalizeDailyAcc)

/-- The daily summaries carried by a `SummaryResult` (`{}` carries none). -/
def SummaryResult.toList : SummaryResult → List DailySummary
  | SummaryResult.emptyDict => []
  | SummaryResult.summaries l => l

/-- Python truthiness of the `forecast_summary` value: the empty dict and
the empty list are falsy. -/
def SummaryResult.truthy : SummaryResult → Bool
  | SummaryResult.emptyDict => false
  | SummaryResult.summaries l => !l.isEmpty

/-! ## Advisory Rule Engine (`_generate_agricultural_suggestions`)

The source mutates one `suggestions` dict through a fixed sequence of
rule groups; the embedding threads the record through one function per
group, in the source's order. -/

/-- The five category lists of the suggestions output. -/
structure Suggestions where
  immediate_actions : List String
  weekly_planning : List String
  crop_care : List String
  irrigation : List String
  pest_disease_alerts : List String
deriving DecidableEq, Repr

/-- The initial suggestions dict with five empty lists. -/
def emptySuggestions : Suggestions :=
  { immediate_actions := []
    weekly_planning := []
    crop_care := []
    irrigation := []
    pest_disease_alerts := [] }

/-- Temperature-based rule group (`if temp < 5: ... elif temp > 35: ...`). -/
def temperatureStage (temp : ℚ) (s : Suggestions) : Suggestions :=
  if temp < 5 then
    { s with
      immediate_actions := s.immediate_actions ++
        ["Protect sensitive crops from frost damage"]
      crop_care := s.crop_care ++
        ["Consider covering young plants or moving potted plants indoors"] }
  else if temp > 35 then
    { s with
      immediate_actions := s.immediate_actions ++
        ["Provide shade for sensitive crops during peak heat"]
      irrigation := s.irrigation ++
        ["Increase watering frequency due to high temperatures"] }
  else s

/-- Humidity-based rule group (`if humidity > 80: ... elif humidity < 30: ...`). -/
def humidityStage (humidity : ℚ) (s : Suggestions) : Suggestions :=
  if humidity > 80 then
    { s with
      pest_disease_alerts := s.pest_disease_alerts ++
        ["High humidity increases fungal disease risk - monitor crops closely"]
      crop_care := s.crop_care ++
        ["Ensure good air circulation around plants"] }
  else if humidity < 30 then
    { s with
      irrigation := s.irrigation ++
        ["Low humidity may increase water needs"] }
  else s

/-- Weather-condition rule group over the lower-cased description
(`if 'rain' in description: ... elif 'clear' ... or 'sunny' ...`). -/
def conditionStage (description : String) (s : Suggestions) : Suggestions :=
  if pyIn "rain" description then
    { s with
      immediate_actions := s.immediate_actions ++
        ["Postpone irrigation - natural rainfall occurring"]
      crop_care := s.crop_care ++
        ["Check for waterlogging in low-lying areas"] }
  else if pyIn "clear" description || pyIn "sunny" description then
    { s with
      irrigation := s.irrigation ++
        ["Good conditions for watering early morning or evening"]
      weekly_planning := s.weekly_planning ++
        ["Ideal weather for field work and harvesting"] }
  else s

/-- Wind rule group (`if wind_speed > 10: ...`). -/
def windStage (wind_speed : ℚ) (s : Suggestions) : Suggestions :=
  if wind_speed > 10 then
    { s with
      immediate_actions := s.immediate_actions ++
        ["Secure tall plants and check for wind damage"]
      crop_care := s.crop_care ++
        ["Avoid spraying pesticides or fertilizers in windy conditions"] }
  else s

/-- Forecast-based planning group (`if forecast_summary: ...`): rain sum
over the first 3 daily summaries, then the temperature-trend pair over
the same entries. -/
def forecastStage (temp : ℚ) (forecast_summary : SummaryResult)
    (s : Suggestions) : Suggestions :=
  if forecast_summary.truthy then
    let l := forecast_summary.toList
    let upcoming_rain := ((l.take 3).map DailySummary.total_rain).sum
    let s1 :=
      if upcoming_rain > 10 then
        { s with
          weekly_planning := s.weekly_planning ++
            ["Heavy rain expected - prepare drainage and postpone outdoor activities"]
          irrigation := s.irrigation ++
            ["Reduce watering schedule due to expected rainfall"] }
      else if upcoming_rain < 1 then
        { s with
          irrigation := s.irrigation ++
            ["No rain expected - maintain regular watering schedule"] }
      else s
    let avg_temp :=
      ((l.take 3).map DailySummary.max_temp).sum / ((l.take 3).length : ℚ)
    if avg_temp > temp + 5 then
      { s1 with
        weekly_planning := s1.weekly_planning ++
          ["Temperature rising - prepare for increased water needs"] }
    else if avg_temp < temp - 5 then
      { s1 with
        weekly_planning := s1.weekly_planning ++
          ["Temperature dropping - protect sensitive crops"] }
    else s1
  else s

/-- Seasonal rule group keyed by `datetime.now().month`. -/
def seasonStage (month : Nat) (s : Suggestions) : Suggestions :=
  if month = 12 || month = 1 || month = 2 then
    { s with
      crop_care := s.crop_care ++
        ["Winter season - focus on cold-hardy crops and protection"] }
  else if month = 3 || month = 4 || month = 5 then
    { s with
      weekly_planning := s.weekly_planning ++
        ["Spring season - ideal time for planting and soil preparation"] }
  else if month = 6 || month = 7 || month = 8 then
    { s with
      irrigation := s.irrigation ++
        ["Summer season - maintain consistent watering and mulching"] }
  else if month = 9 || month = 10 || month = 11 then
    { s with
      weekly_planning := s.weekly_planning ++
        ["Fall season - harvest time and winter preparation"] }
  else s

/-- The ambient wall clock `datetime.now()` read inside the engine;
only its calendar fields are modelled. -/
structure Clock where
  year : Nat
  month : Nat
  day : Nat
deriving DecidableEq, Repr

/-- `WeatherService._generate_agricultural_suggestions`: the rule groups
applied in source order to the empty suggestions dict. The ambient
`datetime.now()` is passed as the explicit `clock` argument; the body
reads nothing but its `month`. -/
def generate_agricultural_suggestions (current_weather : CurrentWeather)
    (forecast : List FormattedItem) (clock : Clock) : Suggestions :=
  seasonStage clock.month
    (forecastStage current_weather.temperature (get_forecast_summary forecast)
      (windStage current_weather.wind_speed
        (conditionStage (pyLower current_weather.description)
          (humidityStage current_weather.humidity
            (temperatureStage current_weather.temperature emptySuggestions)))))

/-! ## Orchestrator (`get_agricultural_suggestions`) -/

/-- The outcome of one provider fetch (`get_current_weather` /
`get_weather_forecast` return `{'success': True, ...}` or
`{'success': False, 'error': msg}`). -/
inductive FetchResult (α : Type) where
  | ok : α → FetchResult α
  | err : String → FetchResult α
deriving DecidableEq, Repr

/-- `true` on the failure shape (`not result['success']`). -/
def FetchResult.isErr {α : Type} : FetchResult α → Bool
  | FetchResult.ok _ => false
  | FetchResult.err _ => true

/-- The external world the orchestrator runs against: what each provider
fetch would return, and the wall clock. -/
structure OrchEnv where
  currentFetch : FetchResult CurrentWeather
  forecastFetch : FetchResult (List FormattedItem)
  clock : Clock
deriving DecidableEq, Repr

/-- The success payload assembled by `get_agricultural_suggestions`. -/
structure AdvisoryPayload where
  current_weather : CurrentWeather
  forecast_summary : SummaryResult
  agricultural_suggestions : Suggestions
  city : String
deriving DecidableEq, Repr

/-- The orchestrator's overall outcome. -/
inductive OrchResult where
  | ok : AdvisoryPayload → OrchResult
  | err : String → OrchResult
deriving DecidableEq, Repr

/-- Which provider fetches a run of the orchestrator issued. -/
inductive FetchCall where
  | currentW : FetchCall
  | forecastW : FetchCall
deriving DecidableEq, Repr

/-- `WeatherService.get_agricultural_suggestions`: issues the current
fetch, then the forecast fetch (both unconditionally, in that order —
the trace of issued fetches is the first component), then checks the two
success flags and either assembles the payload or returns the fixed
error string of the source. -/
def get_agricultural_suggestions (env : OrchEnv) :
    List FetchCall × OrchResult :=
  let current_result := env.currentFetch
  let forecast_result := env.forecastFetch
  let calls := [FetchCall.currentW, FetchCall.forecastW]
  match current_result, forecast_result with
  | FetchResult.ok current_weather, FetchResult.ok forecast =>
    (calls, OrchResult.ok
      { current_weather := current_weather
        forecast_summary := get_forecast_summary forecast
        agricultural_suggestions :=
          generate_agricultural_suggestions current_weather forecast env.clock
        city := current_weather.city_name })
  | _, _ =>
    (calls, OrchResult.err "Failed to fetch weather data for suggestions")

/-! ## Specification-side helpers

Counting, first-occurrence indices and first-seen key order, used to
state and prove properties of the aggregator. -/

section SpecHelpers

variable {α : Type} [DecidableEq α]

/-- Number of occurrences of `a` in a list. -/
def occCount (a : α) : List α → Nat
  | [] => 0
  | b :: t => (if b = a then 1 else 0) + occCount a t

/-- Index of the first occurrence of `a` (length of the list when absent). -/
def firstIdx (a : α) : List α → Nat
  | [] => 0
  | b :: t => if b = a then 0 else firstIdx a t + 1

/-- One step of `firstSeen`: keep a known element, append a new one. -/
def fsStep (acc : List α) (c : α) : List α :=
  if c ∈ acc then acc else acc ++ [c]

/-- The distinct elements of a list in order of first occurrence: the
key order of an insertion-ordered Python dict built over the list. -/
def firstSeen (l : List α) : List α := l.foldl fsStep []

theorem occCount_append (a : α) (l l' : List α) :
    occCount a (l ++ l') = occCount a l + occCount a l' := by
  induction l with
  | nil => simp [occCount]
  | cons b t ih =>
      show (if b = a then 1 else 0) + occCount a (t ++ l') =
        ((if b = a then 1 else 0) + occCount a t) + occCount a l'
      rw [ih, Nat.add_assoc]

theorem occCount_pos_iff_mem (a : α) (l : List α) :
    0 < occCount a l ↔ a ∈ l := by
  induction l with
  | nil => simp [occCount]
  | cons b t ih =>
      by_cases hb : b = a
      · subst hb; simp [occCount]
      · simp [occCount, hb, ih, Ne.symm hb]

theorem firstIdx_append_left (a : α) (t t' : List α) (h : a ∈ t) :
    firstIdx a (t ++ t') = firstIdx a t := by
  induction t with
  | nil => cases h
  | cons b s ih =>
      by_cases hb : b = a
      · simp [firstIdx, hb]
      · have : a ∈ s := by
          rcases List.mem_cons.mp h with h' | h'
          · exact absurd h'.symm hb
          · exact h'
        simp [firstIdx, hb, ih this]

theorem firstIdx_append_right (a : α) (t t' : List α) (h : a ∉ t) :
    firstIdx a (t ++ t') = t.length + firstIdx a t' := by
  induction t with
  | nil => simp
  | cons b s ih =>
      have hb : ¬ b = a := fun hba => h (by simp [hba])
      have hs : a ∉ s := fun hs' => h (List.mem_cons_of_mem _ hs')
      simp [firstIdx, hb, ih hs, List.length_cons, Nat.add_assoc,
        Nat.add_comm 1 (firstIdx a t')]

theorem firstIdx_lt_length (a : α) (t : List α) (h : a ∈ t) :
    firstIdx a t < t.length := by
  induction t with
  | nil => cases h
  | cons b s ih =>
      by_cases hb : b = a
      · simp [firstIdx, hb]
      · have : a ∈ s := by
          rcases List.mem_cons.mp h with h' | h'
          · exact absurd h'.symm hb
          · exact h'
        simp only [firstIdx, if_neg hb, List.length_cons]
        exact Nat.succ_lt_succ (ih this)

theorem mem_fsStep (acc : List α) (c x : α) :
    x ∈ fsStep acc c ↔ x ∈ acc ∨ x = c := by
  unfold fsStep
  split
  · rename_i hc
    constructor
    · exact fun h' => Or.inl h'
    · rintro (h' | rfl)
      · exact h'
      · exact hc
  · simp

theorem mem_foldl_fsStep (l : List α) :
    ∀ (acc : List α) (x : α), x ∈ l.foldl fsStep acc ↔ x ∈ acc ∨ x ∈ l := by
  induction l with
  | nil => simp
  | cons c t ih =>
      intro acc x
      rw [List.foldl_cons, ih, mem_fsStep, List.mem_cons]
      tauto

theorem mem_firstSeen (l : List α) (x : α) : x ∈ firstSeen l ↔ x ∈ l := by
  unfold firstSeen
  rw [mem_foldl_fsStep]
  simp

theorem nodup_foldl_fsStep (l : List α) :
    ∀ acc : List α, acc.Nodup → (l.foldl fsStep acc).Nodup := by
  induction l with
  | nil => exact fun acc h => h
  | cons c t ih =>
      intro acc hacc
      rw [List.foldl_cons]
      refine ih _ ?_
      unfold fsStep
      split
      · exact hacc
      · rename_i hc
        simp [List.nodup_append, hacc, hc]

theorem nodup_firstSeen (l : List α) : (firstSeen l).Nodup :=
  nodup_foldl_fsStep l [] List.nodup_nil

theorem firstSeen_append (l : List α) (a : α) :
    firstSeen (l ++ [a]) =
      if a ∈ firstSeen l then firstSeen l else firstSeen l ++ [a] := by
  simp only [firstSeen, List.foldl_append, List.foldl_cons, List.foldl_nil]
  rfl

theorem pairwise_firstIdx_firstSeen (l : List α) :
    (firstSeen l).Pairwise (fun a b => firstIdx a l < firstIdx b l) := by
  induction l using List.reverseRecOn with
  | nil => simp [firstSeen]
  | append_singleton t c ih =>
      rw [firstSeen_append]
      split
      · refine ih.imp_of_mem ?_
        intro a b ha hb hab
        rw [firstIdx_append_left a t [c] ((mem_firstSeen t a).mp ha),
          firstIdx_append_left b t [c] ((mem_firstSeen t b).mp hb)]
        exact hab
      · rename_i hc
        have hct : c ∉ t := fun h => hc ((mem_firstSeen t c).mpr h)
        rw [List.pairwise_append]
        refine ⟨?_, by simp, ?_⟩
        · refine ih.imp_of_mem ?_
          intro a b ha hb hab
          rw [firstIdx_append_left a t [c] ((mem_firstSeen t a).mp ha),
            firstIdx_append_left b t [c] ((mem_firstSeen t b).mp hb)]
          exact hab
        · intro a ha b hb
          have hb' : b = c := by simpa using hb
          subst hb'
          have hat : a ∈ t := (mem_firstSeen t a).mp ha
          rw [firstIdx_append_left a t [b] hat, firstIdx_append_right b t [b] hct]
          have : firstIdx b [b] = 0 := by simp [firstIdx]
          rw [this, Nat.add_zero]
          exact firstIdx_lt_length a t hat

end SpecHelpers

theorem pairwise_lt_firstSeen {β : Type} [LinearOrder β] (l : List β)
    (hs : l.Pairwise (· ≤ ·)) : (firstSeen l).Pairwise (· < ·) := by
  induction l using List.reverseRecOn with
  | nil => simp [firstSeen]
  | append_singleton t a ih =>
      have hparts := List.pairwise_append.mp hs
      rw [firstSeen_append]
      split
      · exact ih hparts.1
      · rename_i hna
        have hnat : a ∉ t := fun h => hna ((mem_firstSeen t a).mpr h)
        rw [List.pairwise_append]
        refine ⟨ih hparts.1, by simp, ?_⟩
        intro b hb c hc
        have hc' : c = a := by simpa using hc
        subst hc'
        have hbt : b ∈ t := (mem_firstSeen t b).mp hb
        have hble : b ≤ c := hparts.2.2 b hbt c (by simp)
        have hbne : b ≠ c := fun h => hnat (h ▸ hbt)
        exact lt_of_le_of_ne hble hbne

/-! ## The insertion-ordered counting map and the first-max selection -/


theorem bumpCount_of_not_mem (m : List (String × Nat)) (c : String)
    (h : c ∉ m.map Prod.fst) : bumpCount m c = m ++ [(c, 1)] := by
  induction m with
  | nil => rfl
  | cons kv t ih =>
      obtain ⟨k, v⟩ := kv
      have hk : ¬ k = c := fun hkc => h (by simp [hkc])
      have ht : c ∉ t.map Prod.fst := fun h' => h (by simp [h'])
      simp [bumpCount, hk, ih ht]

theorem bumpCount_map (m : List String) (F : String → Nat) (c : String)
    (hnd : m.Nodup) (hc : c ∈ m) :
    bumpCount (m.map fun x => (x, F x)) c =
      m.map fun x => (x, F x + if x = c then 1 else 0) := by
  induction m with
  | nil => cases hc
  | cons x t ih =>
      by_cases hx : x = c
      · subst hx
        have hxt : x ∉ t := (List.nodup_cons.mp hnd).1
        have htail : (t.map fun y => (y, F y)) =
            t.map fun y => (y, F y + if y = x then 1 else 0) := by
          refine List.map_congr_left ?_
          intro y hy
          have hyx : ¬ y = x := fun h => hxt (h ▸ hy)
          simp [hyx]
        calc bumpCount ((x, F x) :: t.map fun y => (y, F y)) x
            = (x, F x + 1) :: t.map (fun y => (y, F y)) := by
              simp [bumpCount]
          _ = (x, F x + if x = x then 1 else 0) ::
                t.map fun y => (y, F y + if y = x then 1 else 0) := by
              rw [htail]; simp
      · have hct : c ∈ t := by
          rcases List.mem_cons.mp hc with h' | h'
          · exact absurd h'.symm hx
          · exact h'
        simp only [List.map_cons, bumpCount, if_neg hx]
        rw [ih (List.nodup_cons.mp hnd).2 hct]
        simp [hx]

theorem condition_counts_eq (cs : List String) :
    condition_counts cs = (firstSeen cs).map fun c => (c, occCount c cs) := by
  induction cs using List.reverseRecOn with
  | nil => rfl
  | append_singleton t c ih =>
      have hstep : condition_counts (t ++ [c]) = bumpCount (condition_counts t) c := by
        simp [condition_counts, List.foldl_append]
      rw [hstep, ih, firstSeen_append]
      by_cases hc : c ∈ firstSeen t
      · rw [if_pos hc]
        rw [bumpCount_map (firstSeen t) (fun x => occCount x t) c (nodup_firstSeen t) hc]
        refine List.map_congr_left ?_
        intro x hx
        have : occCount x (t ++ [c]) = occCount x t + if x = c then 1 else 0 := by
          rw [occCount_append]
          by_cases hxc : x = c
          · simp [occCount, hxc]
          · have hcx : ¬ c = x := fun h => hxc h.symm
            simp [occCount, hcx, hxc]
        rw [this]
      · rw [if_neg hc]
        have hcfst : c ∉ ((firstSeen t).map fun x => (x, occCount x t)).map Prod.fst := by
          rw [List.map_map]
          simpa using hc
        rw [bumpCount_of_not_mem _ c hcfst, List.map_append]
        have hct : c ∉ t := fun h => hc ((mem_firstSeen t c).mpr h)
        congr 1
        · refine List.map_congr_left ?_
          intro x hx
          have hxc : ¬ c = x := by
            intro h
            exact hct (h ▸ (mem_firstSeen t x).mp hx)
          rw [occCount_append]
          simp [occCount, hxc]
        · have h0 : occCount c t = 0 := by
            by_contra h
            exact hct ((occCount_pos_iff_mem c t).mp (Nat.pos_of_ne_zero h))
          simp [occCount_append, occCount, h0]

theorem pickMax_eq_right {kv q : String × Nat} (h : kv.2 < q.2) :
    pickMax kv q = q := by
  simp [pickMax, h]

theorem pickMax_eq_left {kv q : String × Nat} (h : ¬ kv.2 < q.2) :
    pickMax kv q = kv := by
  simp [pickMax, h]

theorem fst_le_pickMax (kv q : String × Nat) : kv.2 ≤ (pickMax kv q).2 := by
  by_cases h : kv.2 < q.2
  · rw [pickMax_eq_right h]; exact le_of_lt h
  · rw [pickMax_eq_left h]

theorem snd_le_pickMax (kv q : String × Nat) : q.2 ≤ (pickMax kv q).2 := by
  by_cases h : kv.2 < q.2
  · rw [pickMax_eq_right h]
  · rw [pickMax_eq_left h]; exact le_of_not_lt h

theorem foldl_pickMax_cases (rest : List (String × Nat)) :
    ∀ kv, rest.foldl pickMax kv = kv ∨
      (rest.foldl pickMax kv ∈ rest ∧ kv.2 < (rest.foldl pickMax kv).2) := by
  induction rest with
  | nil => exact fun kv => Or.inl rfl
  | cons q rest' ih =>
      intro kv
      rw [List.foldl_cons]
      by_cases hlt : kv.2 < q.2
      · rw [pickMax_eq_right hlt]
        rcases ih q with h | ⟨hmem, hq⟩
        · rw [h]
          exact Or.inr ⟨List.mem_cons_self q rest', hlt⟩
        · exact Or.inr ⟨List.mem_cons_of_mem q hmem, lt_trans hlt hq⟩
      · rw [pickMax_eq_left hlt]
        rcases ih kv with h | ⟨hmem, hkv⟩
        · exact Or.inl h
        · exact Or.inr ⟨List.mem_cons_of_mem q hmem, hkv⟩

theorem foldl_pickMax_le (rest : List (String × Nat)) :
    ∀ kv p, p ∈ kv :: rest → p.2 ≤ (rest.foldl pickMax kv).2 := by
  induction rest with
  | nil =>
      intro kv p hp
      have hpkv : p = kv := by simpa using hp
      rw [hpkv]
      exact le_refl _
  | cons q rest' ih =>
      intro kv p hp
      rw [List.foldl_cons]
      have hhead : (pickMax kv q).2 ≤ (rest'.foldl pickMax (pickMax kv q)).2 :=
        ih (pickMax kv q) (pickMax kv q) (List.mem_cons_self _ _)
      rcases List.mem_cons.mp hp with rfl | hp'
      · exact le_trans (fst_le_pickMax p q) hhead
      · rcases List.mem_cons.mp hp' with rfl | hp''
        · exact le_trans (snd_le_pickMax kv p) hhead
        · exact ih (pickMax kv q) p (List.mem_cons_of_mem _ hp'')

theorem foldl_pickMax_tie {R : (String × Nat) → (String × Nat) → Prop}
    (rest : List (String × Nat)) :
    ∀ kv, (kv :: rest).Pairwise R → ∀ p ∈ kv :: rest,
      p.2 = (rest.foldl pickMax kv).2 →
      rest.foldl pickMax kv = p ∨ R (rest.foldl pickMax kv) p := by
  induction rest with
  | nil =>
      intro kv _ p hp _
      left
      have hpkv : p = kv := by simpa using hp
      rw [hpkv]
      rfl
  | cons q rest' ih =>
      intro kv hpw p hp hp2
      rw [List.foldl_cons] at hp2 ⊢
      have hpw' : ((pickMax kv q) :: rest').Pairwise R := by
        rcases List.pairwise_cons.mp hpw with ⟨hkv, hrest⟩
        rcases List.pairwise_cons.mp hrest with ⟨hq, hrest'⟩
        refine List.pairwise_cons.mpr ⟨?_, hrest'⟩
        intro b hb
        by_cases hlt : kv.2 < q.2
        · rw [pickMax_eq_right hlt]; exact hq b hb
        · rw [pickMax_eq_left hlt]; exact hkv b (List.mem_cons_of_mem q hb)
      by_cases hlt : kv.2 < q.2
      · rcases List.mem_cons.mp hp with rfl | hp'
        · -- p = kv, which cannot tie with the result
          exfalso
          have hle : (pickMax p q).2 ≤ (rest'.foldl pickMax (pickMax p q)).2 :=
            foldl_pickMax_le rest' (pickMax p q) (pickMax p q) (List.mem_cons_self _ _)
          have hple : p.2 < (pickMax p q).2 := by
            rw [pickMax_eq_right hlt]
            exact hlt
          have hlt2 : p.2 < (rest'.foldl pickMax (pickMax p q)).2 :=
            lt_of_lt_of_le hple hle
          rw [← hp2] at hlt2
          exact lt_irrefl _ hlt2
        · exact ih (pickMax kv q) hpw' p
            (by rw [pickMax_eq_right hlt]; exact hp') hp2
      · rcases List.mem_cons.mp hp with rfl | hp'
        · exact ih (pickMax p q) hpw' p
            (by rw [pickMax_eq_left hlt]; exact List.mem_cons_self _ _) hp2
        · rcases List.mem_cons.mp hp' with rfl | hp''
          · -- p = q, with q.2 ≤ kv.2
            have hqle : p.2 ≤ kv.2 := le_of_not_lt hlt
            rw [pickMax_eq_left hlt] at hp2 ⊢
            rcases foldl_pickMax_cases rest' kv with hcase | ⟨_, hgt⟩
            · rw [hcase]
              right
              exact (List.pairwise_cons.mp hpw).1 p (List.mem_cons_self _ _)
            · exfalso
              have : kv.2 < p.2 := hp2 ▸ hgt
              exact absurd this (not_lt_of_le hqle)
          · exact ih (pickMax kv q) hpw' p (List.mem_cons_of_mem _ hp'') hp2

/-- The dominant-condition selection of the source: over a nonempty
condition list, `pyMaxByCount` of the insertion-ordered counting map
returns a condition of the list with maximal occurrence count, and among
tied conditions the one whose first occurrence is earliest. -/
theorem pyMax_spec (cs : List String) (hne : cs ≠ []) :
    ∃ sel, pyMaxByCount (condition_counts cs) = some sel ∧ sel ∈ cs ∧
      (∀ c, occCount c cs ≤ occCount sel cs) ∧
      (∀ c, occCount c cs = occCount sel cs →
        firstIdx sel cs ≤ firstIdx c cs) := by
  obtain ⟨x, hx⟩ : ∃ x, x ∈ cs := by
    cases cs with
    | nil => exact absurd rfl hne
    | cons y t => exact ⟨y, List.mem_cons_self y t⟩
  have hxfs : x ∈ firstSeen cs := (mem_firstSeen cs x).mpr hx
  obtain ⟨m0, mrest, hm⟩ : ∃ m0 mrest, firstSeen cs = m0 :: mrest := by
    cases hfs : firstSeen cs with
    | nil => rw [hfs] at hxfs; cases hxfs
    | cons m0 mrest => exact ⟨m0, mrest, rfl⟩
  have hcc : condition_counts cs =
      (m0, occCount m0 cs) :: mrest.map (fun c => (c, occCount c cs)) := by
    rw [condition_counts_eq, hm, List.map_cons]
  set F : String → String × Nat := fun c => (c, occCount c cs) with hF
  set r := (mrest.map F).foldl pickMax (F m0) with hr
  have hpy : pyMaxByCount (condition_counts cs) = some r.1 := by
    rw [hcc]
    rfl
  have hrmem : r ∈ (firstSeen cs).map F := by
    rw [hm, List.map_cons]
    rcases foldl_pickMax_cases (mrest.map F) (F m0) with h | ⟨h, _⟩
    · rw [hr, h]
      exact List.mem_cons_self _ _
    · exact List.mem_cons_of_mem _ (hr ▸ h)
  obtain ⟨sel, hselfs, hselr⟩ := List.mem_map.mp hrmem
  have hrsel : r = (sel, occCount sel cs) := hselr.symm
  rw [hpy]
  have hr1 : r.1 = sel := by rw [hrsel]
  rw [hr1]
  refine ⟨sel, rfl, (mem_firstSeen cs sel).mp hselfs, ?_, ?_⟩
  · intro c
    by_cases hcmem : c ∈ cs
    · have hFc : F c ∈ F m0 :: mrest.map F := by
        rw [← List.map_cons, ← hm]
        exact List.mem_map_of_mem F ((mem_firstSeen cs c).mpr hcmem)
      have hle := foldl_pickMax_le (mrest.map F) (F m0) (F c) hFc
      rw [← hr, hrsel] at hle
      exact hle
    · have h0 : occCount c cs = 0 := by
        by_contra h
        exact hcmem ((occCount_pos_iff_mem c cs).mp (Nat.pos_of_ne_zero h))
      rw [h0]
      exact Nat.zero_le _
  · intro c hceq
    have hselmem : sel ∈ cs := (mem_firstSeen cs sel).mp hselfs
    have hcpos : 0 < occCount c cs := by
      rw [hceq]
      exact (occCount_pos_iff_mem sel cs).mpr hselmem
    have hcmem : c ∈ cs := (occCount_pos_iff_mem c cs).mp hcpos
    have hFc : F c ∈ F m0 :: mrest.map F := by
      rw [← List.map_cons, ← hm]
      exact List.mem_map_of_mem F ((mem_firstSeen cs c).mpr hcmem)
    have hpw : (F m0 :: mrest.map F).Pairwise
        (fun p q => firstIdx p.1 cs < firstIdx q.1 cs) := by
      rw [← List.map_cons, ← hm]
      exact (pairwise_firstIdx_firstSeen cs).map F (fun a b h => h)
    have hFc2 : (F c).2 = ((mrest.map F).foldl pickMax (F m0)).2 := by
      rw [← hr, hrsel]
      exact hceq
    have htie := foldl_pickMax_tie (mrest.map F) (F m0) hpw (F c) hFc hFc2
    rw [← hr] at htie
    rcases htie with h | h
    · have hsc : sel = c := by
        have := congrArg Prod.fst h
        rw [hrsel] at this
        exact this
      rw [hsc]
    · have := h
      rw [hrsel] at this
      exact le_of_lt this

/-! ## Structure of the grouping pass -/

/-- A placeholder item (only used to make `accOf` total on the
never-occurring empty group). -/
def dummyItem : FormattedItem :=
  { dt := 0, temperature := 0, feels_like := 0, humidity := 0, pressure := 0,
    description := "", main := "", icon := "", wind_speed := 0,
    wind_direction := 0, precipitation_probability := 0, rain := 0, snow := 0 }

/-- The accumulator the grouping pass builds for date `d` from the
(listed in order) samples of that date: initialization from the first
item, then the unconditional update for every item. -/
def accOf (d : Nat) : List FormattedItem → DailyAcc
  | [] => initDailyAcc d dummyItem
  | g0 :: gs => (g0 :: gs).foldl (fun a it => updateDailyAcc it a) (initDailyAcc d g0)

/-- The samples of `items` falling on date `d`, in order. -/
def groupItems (items : List FormattedItem) (d : Nat) : List FormattedItem :=
  items.filter (fun it => dateOf it = d)

theorem foldl_upd_date (g : List FormattedItem) :
    ∀ a : DailyAcc, (g.foldl (fun a it => updateDailyAcc it a) a).date = a.date := by
  induction g with
  | nil => intro a; rfl
  | cons x t ih =>
      intro a
      rw [List.foldl_cons]
      rw [ih]
      rfl

theorem accOf_date (d : Nat) (g : List FormattedItem) : (accOf d g).date = d := by
  cases g with
  | nil => rfl
  | cons g0 gs =>
      show ((g0 :: gs).foldl (fun a it => updateDailyAcc it a) (initDailyAcc d g0)).date = d
      rw [foldl_upd_date]
      rfl

theorem accOf_append (d : Nat) (g : List FormattedItem) (hg : g ≠ [])
    (x : FormattedItem) :
    accOf d (g ++ [x]) = updateDailyAcc x (accOf d g) := by
  cases g with
  | nil => exact absurd rfl hg
  | cons g0 gs =>
      show ((g0 :: (gs ++ [x])).foldl (fun a it => updateDailyAcc it a)
        (initDailyAcc d g0)) = _
      rw [show g0 :: (gs ++ [x]) = (g0 :: gs) ++ [x] by rfl, List.foldl_append]
      rfl

theorem groupItems_append (items : List FormattedItem) (x : FormattedItem) (d : Nat) :
    groupItems (items ++ [x]) d =
      groupItems items d ++ if dateOf x = d then [x] else [] := by
  unfold groupItems
  rw [List.filter_append]
  congr 1
  by_cases h : dateOf x = d
  · simp [h]
  · simp [h]

theorem groupItems_ne_nil (items : List FormattedItem) (d : Nat)
    (h : d ∈ items.map dateOf) : groupItems items d ≠ [] := by
  obtain ⟨it, hit, hd⟩ := List.mem_map.mp h
  have : it ∈ groupItems items d := by
    unfold groupItems
    rw [List.mem_filter]
    exact ⟨hit, by simp [hd]⟩
  exact List.ne_nil_of_mem this

theorem groupItems_eq_nil (items : List FormattedItem) (d : Nat)
    (h : d ∉ items.map dateOf) : groupItems items d = [] := by
  unfold groupItems
  rw [List.filter_eq_nil_iff]
  intro it hit
  simp only [decide_eq_true_eq]
  intro hd
  exact h (List.mem_map.mpr ⟨it, hit, hd⟩)

/-- The grouping pass of `_get_forecast_summary` equals: one accumulator
per distinct date in first-seen order, each built from exactly that
date's samples in order. -/
theorem buildDailyAccs_eq (items : List FormattedItem) :
    buildDailyAccs items =
      (firstSeen (items.map dateOf)).map
        (fun d => accOf d (groupItems items d)) := by
  induction items using List.reverseRecOn with
  | nil => rfl
  | append_singleton t x ih =>
      have hstep : buildDailyAccs (t ++ [x]) =
          insertForecastItem (buildDailyAccs t) x := by
        simp [buildDailyAccs, List.foldl_append]
      rw [hstep, ih, List.map_append]
      rw [show (List.map dateOf [x]) = [dateOf x] from rfl, firstSeen_append]
      have hany : ((firstSeen (t.map dateOf)).map
          (fun d => accOf d (groupItems t d))).any
            (fun a => a.date = dateOf x) = decide (dateOf x ∈ firstSeen (t.map dateOf)) := by
        by_cases hm : dateOf x ∈ firstSeen (t.map dateOf)
        · rw [decide_eq_true hm]
          rw [List.any_eq_true]
          refine ⟨accOf (dateOf x) (groupItems t (dateOf x)), List.mem_map_of_mem _ hm, ?_⟩
          simp [accOf_date]
        · rw [decide_eq_false hm]
          rw [List.any_eq_false]
          intro a ha
          obtain ⟨d, hd, rfl⟩ := List.mem_map.mp ha
          simp only [accOf_date, decide_eq_true_eq]
          intro hdx
          exact hm (hdx ▸ hd)
      unfold insertForecastItem
      rw [hany]
      by_cases hm : dateOf x ∈ firstSeen (t.map dateOf)
      · rw [if_pos (decide_eq_true hm), if_pos hm, List.map_map]
        refine List.map_congr_left ?_
        intro d hd
        simp only [Function.comp_apply, accOf_date]
        by_cases hdx : d = dateOf x
        · rw [if_pos hdx, hdx, groupItems_append, if_pos rfl]
          have hg : groupItems t (dateOf x) ≠ [] := by
            refine groupItems_ne_nil t (dateOf x) ((mem_firstSeen _ (dateOf x)).mp hm)
          rw [accOf_append (dateOf x) (groupItems t (dateOf x)) hg x]
        · rw [if_neg hdx, groupItems_append,
            if_neg (fun h => hdx h.symm), List.append_nil]
      · rw [if_neg (by rw [decide_eq_false hm]; simp), if_neg hm, List.map_append]
        congr 1
        · refine List.map_congr_left ?_
          intro d hd
          have hdx : ¬ dateOf x = d := by
            intro h
            exact hm (h ▸ hd)
          rw [groupItems_append, if_neg hdx, List.append_nil]
        · rw [show (List.map (fun d => accOf d (groupItems (t ++ [x]) d)) [dateOf x])
              = [accOf (dateOf x) (groupItems (t ++ [x]) (dateOf x))] from rfl]
          have hempty : groupItems t (dateOf x) = [] :=
            groupItems_eq_nil t (dateOf x) (fun h => hm ((mem_firstSeen _ _).mpr h))
          rw [groupItems_append, if_pos rfl, hempty, List.nil_append]
          rfl

/-! ## Per-field closed forms of the accumulator -/

theorem foldl_upd_min_temp (g : List FormattedItem) :
    ∀ a : DailyAcc, (g.foldl (fun a it => updateDailyAcc it a) a).min_temp =
      g.foldl (fun m it => min m it.temperature) a.min_temp := by
  induction g with
  | nil => intro a; rfl
  | cons x t ih =>
      intro a
      rw [List.foldl_cons, List.foldl_cons, ih]
      rfl

theorem foldl_upd_max_temp (g : List FormattedItem) :
    ∀ a : DailyAcc, (g.foldl (fun a it => updateDailyAcc it a) a).max_temp =
      g.foldl (fun m it => max m it.temperature) a.max_temp := by
  induction g with
  | nil => intro a; rfl
  | cons x t ih =>
      intro a
      rw [List.foldl_cons, List.foldl_cons, ih]
      rfl

theorem foldl_upd_total_rain (g : List FormattedItem) :
    ∀ a : DailyAcc, (g.foldl (fun a it => updateDailyAcc it a) a).total_rain =
      a.total_rain + (g.map FormattedItem.rain).sum := by
  induction g with
  | nil => intro a; simp
  | cons x t ih =>
      intro a
      rw [List.foldl_cons, ih]
      show a.total_rain + x.rain + (t.map FormattedItem.rain).sum = _
      rw [List.map_cons, List.sum_cons, add_assoc]

theorem foldl_upd_avg_humidity (g : List FormattedItem) :
    ∀ a : DailyAcc, (g.foldl (fun a it => updateDailyAcc it a) a).avg_humidity =
      a.avg_humidity + (g.map FormattedItem.humidity).sum := by
  induction g with
  | nil => intro a; simp
  | cons x t ih =>
      intro a
      rw [List.foldl_cons, ih]
      show a.avg_humidity + x.humidity + (t.map FormattedItem.humidity).sum = _
      rw [List.map_cons, List.sum_cons, add_assoc]

theorem foldl_upd_conditions (g : List FormattedItem) :
    ∀ a : DailyAcc, (g.foldl (fun a it => updateDailyAcc it a) a).conditions =
      a.conditions ++ g.map FormattedItem.main := by
  induction g with
  | nil => intro a; simp
  | cons x t ih =>
      intro a
      rw [List.foldl_cons, ih]
      show a.conditions ++ [x.main] ++ t.map FormattedItem.main = _
      rw [List.map_cons, List.append_assoc]
      rfl

theorem foldl_upd_count (g : List FormattedItem) :
    ∀ a : DailyAcc, (g.foldl (fun a it => updateDailyAcc it a) a).count =
      a.count + g.length := by
  induction g with
  | nil => intro a; simp
  | cons x t ih =>
      intro a
      rw [List.foldl_cons, ih]
      show a.count + 1 + t.length = _
      rw [List.length_cons]
      omega

theorem foldl_min_le (l : List FormattedItem) :
    ∀ a : ℚ, l.foldl (fun m it => min m it.temperature) a ≤ a := by
  induction l with
  | nil => intro a; exact le_refl a
  | cons x t ih =>
      intro a
      rw [List.foldl_cons]
      exact le_trans (ih (min a x.temperature)) (min_le_left _ _)

theorem le_foldl_max (l : List FormattedItem) :
    ∀ a : ℚ, a ≤ l.foldl (fun m it => max m it.temperature) a := by
  induction l with
  | nil => intro a; exact le_refl a
  | cons x t ih =>
      intro a
      rw [List.foldl_cons]
      exact le_trans (le_max_left _ _) (ih (max a x.temperature))

theorem accOf_min_le_max (d : Nat) (g0 : FormattedItem) (gs : List FormattedItem) :
    (accOf d (g0 :: gs)).min_temp ≤ (accOf d (g0 :: gs)).max_temp := by
  show ((g0 :: gs).foldl (fun a it => updateDailyAcc it a) (initDailyAcc d g0)).min_temp ≤
    ((g0 :: gs).foldl (fun a it => updateDailyAcc it a) (initDailyAcc d g0)).max_temp
  rw [foldl_upd_min_temp, foldl_upd_max_temp]
  exact le_trans (foldl_min_le (g0 :: gs) _)
    (le_foldl_max (g0 :: gs) _)

theorem accOf_total_rain (d : Nat) (g0 : FormattedItem) (gs : List FormattedItem) :
    (accOf d (g0 :: gs)).total_rain = ((g0 :: gs).map FormattedItem.rain).sum := by
  show ((g0 :: gs).foldl (fun a it => updateDailyAcc it a) (initDailyAcc d g0)).total_rain = _
  rw [foldl_upd_total_rain]
  show (0 : ℚ) + _ = _
  rw [zero_add]

theorem accOf_avg_humidity (d : Nat) (g0 : FormattedItem) (gs : List FormattedItem) :
    (accOf d (g0 :: gs)).avg_humidity = ((g0 :: gs).map FormattedItem.humidity).sum := by
  show ((g0 :: gs).foldl (fun a it => updateDailyAcc it a) (initDailyAcc d g0)).avg_humidity = _
  rw [foldl_upd_avg_humidity]
  show (0 : ℚ) + _ = _
  rw [zero_add]

theorem accOf_conditions (d : Nat) (g0 : FormattedItem) (gs : List FormattedItem) :
    (accOf d (g0 :: gs)).conditions = (g0 :: gs).map FormattedItem.main := by
  show ((g0 :: gs).foldl (fun a it => updateDailyAcc it a) (initDailyAcc d g0)).conditions = _
  rw [foldl_upd_conditions]
  show ([] : List String) ++ _ = _
  rw [List.nil_append]

theorem accOf_count (d : Nat) (g0 : FormattedItem) (gs : List FormattedItem) :
    (accOf d (g0 :: gs)).count = (g0 :: gs).length := by
  show ((g0 :: gs).foldl (fun a it => updateDailyAcc it a) (initDailyAcc d g0)).count = _
  rw [foldl_upd_count]
  simp [initDailyAcc]

/-! ## The summaries of a forecast, characterized -/

/-- The `conditionMain` values of the samples of `items` on date `d`, in
chronological order. -/
def conditionsOfDate (items : List FormattedItem) (d : Nat) : List String :=
  (groupItems items d).map FormattedItem.main

theorem get_forecast_summary_eq (items : List FormattedItem) (l : List DailySummary)
    (hl : get_forecast_summary items = SummaryResult.summaries l) :
    items ≠ [] ∧
      l = (firstSeen (items.map dateOf)).map
        (fun d => finalizeDailyAcc (accOf d (groupItems items d))) := by
  by_cases hnil : items = []
  · rw [hnil] at hl
    cases hl
  · refine ⟨hnil, ?_⟩
    unfold get_forecast_summary at hl
    rw [if_neg hnil] at hl
    injection hl with hl'
    rw [← hl', buildDailyAccs_eq, List.map_map]
    rfl

/-- Every summary in the output corresponds to a nonempty group of
same-date samples of the input. -/
theorem summary_elim (items : List FormattedItem) (l : List DailySummary)
    (hl : get_forecast_summary items = SummaryResult.summaries l)
    (s : DailySummary) (hs : s ∈ l) :
    ∃ g0 gs, groupItems items s.date = g0 :: gs ∧
      s = finalizeDailyAcc (accOf s.date (g0 :: gs)) := by
  obtain ⟨_, hleq⟩ := get_forecast_summary_eq items l hl
  rw [hleq] at hs
  obtain ⟨d, hd, hds⟩ := List.mem_map.mp hs
  have hsdate : s.date = d := by
    rw [← hds]
    show (accOf d (groupItems items d)).date = d
    exact accOf_date d _
  have hne : groupItems items d ≠ [] :=
    groupItems_ne_nil items d ((mem_firstSeen _ d).mp hd)
  obtain ⟨g0, gs, hg⟩ : ∃ g0 gs, groupItems items d = g0 :: gs := by
    cases hgr : groupItems items d with
    | nil => exact absurd hgr hne
    | cons g0 gs => exact ⟨g0, gs, rfl⟩
  refine ⟨g0, gs, by rw [hsdate, hg], ?_⟩
  rw [hsdate, ← hds, hg]

theorem groupItems_subset (items : List FormattedItem) (d : Nat) :
    ∀ it, it ∈ groupItems items d → it ∈ items := by
  intro it hit
  exact (List.mem_filter.mp hit).1

theorem mul_length_le_sum (l : List ℚ) (lo : ℚ) (h : ∀ x ∈ l, lo ≤ x) :
    lo * (l.length : ℚ) ≤ l.sum := by
  induction l with
  | nil => simp
  | cons x t ih =>
      rw [List.length_cons, List.sum_cons]
      have h1 : lo ≤ x := h x (List.mem_cons_self x t)
      have h2 : lo * (t.length : ℚ) ≤ t.sum :=
        ih (fun y hy => h y (List.mem_cons_of_mem x hy))
      push_cast
      calc lo * ((t.length : ℚ) + 1) = lo * (t.length : ℚ) + lo := by ring
        _ ≤ t.sum + x := add_le_add h2 h1
        _ = x + t.sum := by ring

theorem sum_le_mul_length (l : List ℚ) (hi : ℚ) (h : ∀ x ∈ l, x ≤ hi) :
    l.sum ≤ hi * (l.length : ℚ) := by
  induction l with
  | nil => simp
  | cons x t ih =>
      rw [List.length_cons, List.sum_cons]
      have h1 : x ≤ hi := h x (List.mem_cons_self x t)
      have h2 : t.sum ≤ hi * (t.length : ℚ) :=
        ih (fun y hy => h y (List.mem_cons_of_mem x hy))
      push_cast
      calc x + t.sum ≤ hi + hi * (t.length : ℚ) := add_le_add h1 h2
        _ = hi * ((t.length : ℚ) + 1) := by ring

/-- C7: for every nonempty sample list ordered by ascending timestamp
date, aggregation yields exactly one summary per distinct date, in
strictly ascending date order, and every summary has `min_temp ≤
max_temp`, `total_rain` the sum and `avg_humidity` the arithmetic mean
of its date's samples. -/
theorem C7_aggregate_daily_summaries (items : List FormattedItem)
    (hne : items ≠ [])
    (hsorted : (items.map dateOf).Pairwise (· ≤ ·)) :
    ∃ l, get_forecast_summary items = SummaryResult.summaries l ∧
      l.map DailySummary.date = firstSeen (items.map dateOf) ∧
      (l.map DailySummary.date).Pairwise (· < ·) ∧
      (∀ d, d ∈ l.map DailySummary.date ↔ d ∈ items.map dateOf) ∧
      ∀ s ∈ l, s.min_temp ≤ s.max_temp ∧
        s.total_rain = ((groupItems items s.date).map FormattedItem.rain).sum ∧
        s.avg_humidity =
          ((groupItems items s.date).map FormattedItem.humidity).sum /
            ((groupItems items s.date).length : ℚ) := by
  have hl : get_forecast_summary items = SummaryResult.summaries
      ((buildDailyAccs items).map finalizeDailyAcc) := by
    unfold get_forecast_summary
    rw [if_neg hne]
  have hdates : ((buildDailyAccs items).map finalizeDailyAcc).map DailySummary.date =
      firstSeen (items.map dateOf) := by
    rw [buildDailyAccs_eq, List.map_map, List.map_map]
    refine Eq.trans (List.map_congr_left ?_) (List.map_id _)
    intro d hd
    exact accOf_date d _
  refine ⟨(buildDailyAccs items).map finalizeDailyAcc, hl, hdates, ?_, ?_, ?_⟩
  case _ =>
    rw [hdates]
    exact pairwise_lt_firstSeen _ hsorted
  case _ =>
    intro d
    rw [hdates]
    exact mem_firstSeen _ d
  case _ =>
    intro s hs
    obtain ⟨g0, gs, hg, hseq⟩ := summary_elim items _ hl s hs
    refine ⟨?_, ?_, ?_⟩
    · rw [hseq]
      show (accOf s.date (g0 :: gs)).min_temp ≤ (accOf s.date (g0 :: gs)).max_temp
      exact accOf_min_le_max s.date g0 gs
    · rw [hg, hseq]
      show (accOf s.date (g0 :: gs)).total_rain = _
      rw [accOf_total_rain]
    · rw [hg, hseq]
      show (accOf s.date (g0 :: gs)).avg_humidity /
          ((accOf s.date (g0 :: gs)).count : ℚ) = _
      rw [accOf_avg_humidity, accOf_count]

/-- C9: every summary's finalized `avg_humidity` lies between any lower
and any upper bound of its date's sample humidities (in particular
between their minimum and maximum), and inputs within [0,100] keep every
summary's `avg_humidity` within [0,100]. -/
theorem C9_avg_humidity_bounds (items : List FormattedItem) (l : List DailySummary)
    (hl : get_forecast_summary items = SummaryResult.summaries l)
    (s : DailySummary) (hs : s ∈ l) :
    (∀ lo : ℚ, (∀ it ∈ groupItems items s.date, lo ≤ it.humidity) →
      lo ≤ s.avg_humidity) ∧
    (∀ hi : ℚ, (∀ it ∈ groupItems items s.date, it.humidity ≤ hi) →
      s.avg_humidity ≤ hi) ∧
    ((∀ it ∈ items, 0 ≤ it.humidity ∧ it.humidity ≤ 100) →
      0 ≤ s.avg_humidity ∧ s.avg_humidity ≤ 100) := by
  obtain ⟨g0, gs, hg, hseq⟩ := summary_elim items l hl s hs
  have havg : s.avg_humidity =
      ((g0 :: gs).map FormattedItem.humidity).sum / (((g0 :: gs).length : ℕ) : ℚ) := by
    rw [hseq]
    show (accOf s.date (g0 :: gs)).avg_humidity /
        ((accOf s.date (g0 :: gs)).count : ℚ) = _
    rw [accOf_avg_humidity, accOf_count]
  have hlenpos : (0 : ℚ) < (((g0 :: gs).length : ℕ) : ℚ) := by
    rw [Nat.cast_pos]
    simp
  have hlo : ∀ lo : ℚ, (∀ it ∈ groupItems items s.date, lo ≤ it.humidity) →
      lo ≤ s.avg_humidity := by
    intro lo hbound
    rw [havg, le_div_iff₀ hlenpos]
    have : ∀ x ∈ (g0 :: gs).map FormattedItem.humidity, lo ≤ x := by
      intro x hx
      obtain ⟨it, hit, rfl⟩ := List.mem_map.mp hx
      exact hbound it (hg ▸ hit)
    have h := mul_length_le_sum ((g0 :: gs).map FormattedItem.humidity) lo this
    rw [List.length_map] at h
    exact h
  have hhi : ∀ hi : ℚ, (∀ it ∈ groupItems items s.date, it.humidity ≤ hi) →
      s.avg_humidity ≤ hi := by
    intro hi hbound
    rw [havg, div_le_iff₀ hlenpos]
    have : ∀ x ∈ (g0 :: gs).map FormattedItem.humidity, x ≤ hi := by
      intro x hx
      obtain ⟨it, hit, rfl⟩ := List.mem_map.mp hx
      exact hbound it (hg ▸ hit)
    have h := sum_le_mul_length ((g0 :: gs).map FormattedItem.humidity) hi this
    rw [List.length_map] at h
    exact h
  refine ⟨hlo, hhi, ?_⟩
  intro hall
  constructor
  · exact hlo 0 (fun it hit => (hall it (groupItems_subset items s.date it hit)).1)
  · exact hhi 100 (fun it hit => (hall it (groupItems_subset items s.date it hit)).2)

/-- C10: every summary's selected `main_condition` is the `conditionMain`
of at least one of its date's samples. -/
theorem C10_main_condition_mem (items : List FormattedItem) (l : List DailySummary)
    (hl : get_forecast_summary items = SummaryResult.summaries l)
    (s : DailySummary) (hs : s ∈ l) :
    s.main_condition ∈ conditionsOfDate items s.date := by
  obtain ⟨g0, gs, hg, hseq⟩ := summary_elim items l hl s hs
  have hconds : conditionsOfDate items s.date = (g0 :: gs).map FormattedItem.main := by
    unfold conditionsOfDate
    rw [hg]
  obtain ⟨sel, hsel, hmem, _, _⟩ :=
    pyMax_spec ((g0 :: gs).map FormattedItem.main) (by simp)
  have hmain : s.main_condition = sel := by
    rw [hseq]
    show (pyMaxByCount (condition_counts (accOf s.date (g0 :: gs)).conditions)).getD "" = sel
    rw [accOf_conditions, hsel]
    rfl
  rw [hmain, hconds]
  exact hmem

/-- A forecast timestep for the dominant-condition examples: three
same-date samples varying only in condition. -/
def condTieSample (t : Nat) (temp hum rain : ℚ) (cond : String) : FormattedItem :=
  { dt := t, temperature := temp, feels_like := temp, humidity := hum,
    pressure := 1000, description := "Scattered Clouds", main := cond,
    icon := "03d", wind_speed := 3, wind_direction := 90,
    precipitation_probability := 20, rain := rain, snow := 0 }

/-- Three same-date samples with conditions Cloudy, Rain, Cloudy in order. -/
def condTieItemsA : List FormattedItem :=
  [condTieSample 0 10 50 1 "Cloudy", condTieSample 10800 12 60 2 "Rain",
   condTieSample 21600 11 70 0 "Cloudy"]

/-- Three same-date samples with conditions Rain, Cloudy, Rain in order. -/
def condTieItemsB : List FormattedItem :=
  [condTieSample 0 10 50 1 "Rain", condTieSample 10800 12 60 2 "Cloudy",
   condTieSample 21600 11 70 0 "Rain"]

/-- C1: every summary's `main_condition` is a mode of its date's
condition list, and among conditions tied at the maximal count the one
first encountered in chronological order is selected (smallest first
occurrence index); concretely, same-date conditions
[Cloudy, Rain, Cloudy] select Cloudy and [Rain, Cloudy, Rain] select Rain. -/
theorem C1_dominant_condition_mode_first_tiebreak :
    (∀ (items : List FormattedItem) (l : List DailySummary),
      get_forecast_summary items = SummaryResult.summaries l →
      ∀ s ∈ l,
        (∀ c, occCount c (conditionsOfDate items s.date) ≤
          occCount s.main_condition (conditionsOfDate items s.date)) ∧
        (∀ c, occCount c (conditionsOfDate items s.date) =
            occCount s.main_condition (conditionsOfDate items s.date) →
          firstIdx s.main_condition (conditionsOfDate items s.date) ≤
            firstIdx c (conditionsOfDate items s.date))) ∧
    (get_forecast_summary condTieItemsA).toList.map DailySummary.main_condition
      = ["Cloudy"] ∧
    (get_forecast_summary condTieItemsB).toList.map DailySummary.main_condition
      = ["Rain"] := by
  refine ⟨?_, by decide, by decide⟩
  intro items l hl s hs
  obtain ⟨g0, gs, hg, hseq⟩ := summary_elim items l hl s hs
  have hconds : conditionsOfDate items s.date = (g0 :: gs).map FormattedItem.main := by
    unfold conditionsOfDate
    rw [hg]
  obtain ⟨sel, hsel, _, hmax, htie⟩ :=
    pyMax_spec ((g0 :: gs).map FormattedItem.main) (by simp)
  have hmain : s.main_condition = sel := by
    rw [hseq]
    show (pyMaxByCount (condition_counts (accOf s.date (g0 :: gs)).conditions)).getD "" = sel
    rw [accOf_conditions, hsel]
    rfl
  rw [hconds, hmain]
  exact ⟨hmax, htie⟩

/-- C2: on the empty forecast `_get_forecast_summary` returns the empty
dict `{}` — a value distinct from the empty list of summaries the
contract promises. -/
theorem C2_empty_forecast_returns_empty_dict :
    get_forecast_summary [] = SummaryResult.emptyDict ∧
    decide (SummaryResult.emptyDict = SummaryResult.summaries []) = false := by
  constructor
  · rfl
  · rfl

/-- An environment whose current-weather fetch fails with a distinctive
cause text while the forecast fetch would succeed. -/
def c4env : OrchEnv :=
  { currentFetch := FetchResult.err "connection timeout"
    forecastFetch := FetchResult.ok []
    clock := { year := 2026, month := 10, day := 12 } }

/-- C4 counterexample: with the current fetch failing, the orchestrator
still issues the forecast fetch (the trace holds both calls, so there is
no short-circuit), and the failure it returns is the fixed message of
the source, which does not carry (or even contain) the underlying cause
text of the first failure. -/
theorem C4_counterexample_no_short_circuit_no_cause :
    get_agricultural_suggestions c4env =
      ([FetchCall.currentW, FetchCall.forecastW],
        OrchResult.err "Failed to fetch weather data for suggestions") ∧
    c4env.currentFetch = FetchResult.err "connection timeout" ∧
    pyIn "connection timeout" "Failed to fetch weather data for suggestions" = false := by
  refine ⟨rfl, rfl, by decide⟩

/-- C4 amended: the orchestrator always issues both fetches (current
first, forecast second, unconditionally); if either fetch fails it
returns a failure carrying the fixed message
"Failed to fetch weather data for suggestions" — not the underlying
cause text — and no advisory set or partial data. -/
theorem C4_amended_both_fetches_fixed_error (env : OrchEnv) :
    (get_agricultural_suggestions env).1 =
      [FetchCall.currentW, FetchCall.forecastW] ∧
    ((env.currentFetch.isErr = true ∨ env.forecastFetch.isErr = true) →
      (get_agricultural_suggestions env).2 =
        OrchResult.err "Failed to fetch weather data for suggestions") := by
  obtain ⟨cf, ff, ck⟩ := env
  cases cf with
  | ok cw =>
      cases ff with
      | ok fc =>
          refine ⟨rfl, ?_⟩
          intro h
          rcases h with h | h <;> simp [FetchResult.isErr] at h
      | err m => exact ⟨rfl, fun _ => rfl⟩
  | err m =>
      cases ff with
      | ok fc => exact ⟨rfl, fun _ => rfl⟩
      | err m2 => exact ⟨rfl, fun _ => rfl⟩

/-- C8: the advisory rule engine is a total function of the current
sample, the forecast and the ambient clock, and of the clock it reads
only the calendar month: evaluations under clocks agreeing on the month
(in particular on the full calendar date) give identical suggestion
sets. -/
theorem C8_engine_deterministic (cw : CurrentWeather)
    (forecast : List FormattedItem) (k1 k2 : Clock)
    (hmonth : k1.month = k2.month) :
    generate_agricultural_suggestions cw forecast k1 =
      generate_agricultural_suggestions cw forecast k2 := by
  unfold generate_agricultural_suggestions
  rw [hmonth]

/-- A concrete current-weather record used to witness engine claims. -/
def sampleCurrent : CurrentWeather :=
  { temperature := 3, feels_like := 1, humidity := 85, pressure := 1012,
    description := "Light Rain", main := "Rain", icon := "10d",
    wind_speed := 3, wind_direction := 180, visibility := 8,
    uv_index := 1, city_name := "Mumbai", country := "IN",
    sunrise := 1700000000, sunset := 1700040000, timestamp := 1700020000 }

/-- A concrete three-day forecast used to witness aggregator and engine
claims: two samples on day 0, one on day 1, one on day 2. -/
def sampleForecastItems : List FormattedItem :=
  [condTieSample 0 10 50 4 "Rain", condTieSample 10800 14 60 5 "Rain",
   condTieSample 86400 12 70 3 "Clouds", condTieSample 172800 16 40 0 "Clear"]

theorem C8_engine_deterministic_witness :
    generate_agricultural_suggestions sampleCurrent sampleForecastItems
        { year := 2026, month := 5, day := 1 } =
      generate_agricultural_suggestions sampleCurrent sampleForecastItems
        { year := 2027, month := 5, day := 30 } :=
  C8_engine_deterministic sampleCurrent sampleForecastItems
    { year := 2026, month := 5, day := 1 }
    { year := 2027, month := 5, day := 30 } rfl

/-- The aggregation of `sampleForecastItems`, written out. -/
def sampleSummaries : List DailySummary :=
  [{ date := 0, min_temp := 10, max_temp := 14, total_rain := 9,
     avg_humidity := 55, main_condition := "Rain" },
   { date := 1, min_temp := 12, max_temp := 12, total_rain := 3,
     avg_humidity := 70, main_condition := "Clouds" },
   { date := 2, min_temp := 16, max_temp := 16, total_rain := 0,
     avg_humidity := 40, main_condition := "Clear" }]

/-- Its first daily summary. -/
def sampleSummary0 : DailySummary :=
  { date := 0, min_temp := 10, max_temp := 14, total_rain := 9,
    avg_humidity := 55, main_condition := "Rain" }

theorem C7_aggregate_daily_summaries_witness :
    ∃ l, get_forecast_summary sampleForecastItems = SummaryResult.summaries l ∧
      l.map DailySummary.date = firstSeen (sampleForecastItems.map dateOf) ∧
      (l.map DailySummary.date).Pairwise (· < ·) ∧
      (∀ d, d ∈ l.map DailySummary.date ↔ d ∈ sampleForecastItems.map dateOf) ∧
      ∀ s ∈ l, s.min_temp ≤ s.max_temp ∧
        s.total_rain =
          ((groupItems sampleForecastItems s.date).map FormattedItem.rain).sum ∧
        s.avg_humidity =
          ((groupItems sampleForecastItems s.date).map FormattedItem.humidity).sum /
            ((groupItems sampleForecastItems s.date).length : ℚ) :=
  C7_aggregate_daily_summaries sampleForecastItems (by decide) (by decide)

/-- Concrete evaluation of the aggregator on `sampleForecastItems`. -/
theorem sample_summary_eval :
    get_forecast_summary sampleForecastItems = SummaryResult.summaries sampleSummaries := by
  norm_num [get_forecast_summary, buildDailyAccs, insertForecastItem, updateDailyAcc,
    initDailyAcc, dateOf, condTieSample, sampleForecastItems, sampleSummaries,
    finalizeDailyAcc, condition_counts, bumpCount, pyMaxByCount, pickMax,
    List.foldl, fsStep]
  intro h
  simp at h

theorem C9_avg_humidity_bounds_witness :
    (∀ lo : ℚ, (∀ it ∈ groupItems sampleForecastItems sampleSummary0.date,
        lo ≤ it.humidity) → lo ≤ sampleSummary0.avg_humidity) ∧
    (∀ hi : ℚ, (∀ it ∈ groupItems sampleForecastItems sampleSummary0.date,
        it.humidity ≤ hi) → sampleSummary0.avg_humidity ≤ hi) ∧
    ((∀ it ∈ sampleForecastItems, 0 ≤ it.humidity ∧ it.humidity ≤ 100) →
      0 ≤ sampleSummary0.avg_humidity ∧ sampleSummary0.avg_humidity ≤ 100) :=
  C9_avg_humidity_bounds sampleForecastItems sampleSummaries sample_summary_eval
    sampleSummary0 (by decide)

theorem C10_main_condition_mem_witness :
    sampleSummary0.main_condition ∈
      conditionsOfDate sampleForecastItems sampleSummary0.date :=
  C10_main_condition_mem sampleForecastItems sampleSummaries sample_summary_eval
    sampleSummary0 (by decide)

/-! ## What each rule group appends to each category list -/

theorem temperatureStage_immediate (t : ℚ) (s : Suggestions) :
    (temperatureStage t s).immediate_actions = s.immediate_actions ++
      (if t < 5 then ["Protect sensitive crops from frost damage"]
       else if t > 35 then ["Provide shade for sensitive crops during peak heat"]
       else []) := by
  simp only [temperatureStage]
  split_ifs <;> simp

theorem temperatureStage_crop (t : ℚ) (s : Suggestions) :
    (temperatureStage t s).crop_care = s.crop_care ++
      (if t < 5 then ["Consider covering young plants or moving potted plants indoors"]
       else []) := by
  simp only [temperatureStage]
  split_ifs <;> simp

theorem temperatureStage_irrigation (t : ℚ) (s : Suggestions) :
    (temperatureStage t s).irrigation = s.irrigation ++
      (if t < 5 then []
       else if t > 35 then ["Increase watering frequency due to high temperatures"]
       else []) := by
  simp only [temperatureStage]
  split_ifs <;> simp

theorem temperatureStage_weekly (t : ℚ) (s : Suggestions) :
    (temperatureStage t s).weekly_planning = s.weekly_planning := by
  simp only [temperatureStage]
  split_ifs <;> rfl

theorem temperatureStage_pest (t : ℚ) (s : Suggestions) :
    (temperatureStage t s).pest_disease_alerts = s.pest_disease_alerts := by
  simp only [temperatureStage]
  split_ifs <;> rfl

theorem humidityStage_pest (h : ℚ) (s : Suggestions) :
    (humidityStage h s).pest_disease_alerts = s.pest_disease_alerts ++
      (if h > 80 then
        ["High humidity increases fungal disease risk - monitor crops closely"]
       else []) := by
  simp only [humidityStage]
  split_ifs <;> simp

theorem humidityStage_crop (h : ℚ) (s : Suggestions) :
    (humidityStage h s).crop_care = s.crop_care ++
      (if h > 80 then ["Ensure good air circulation around plants"] else []) := by
  simp only [humidityStage]
  split_ifs <;> simp

theorem humidityStage_irrigation (h : ℚ) (s : Suggestions) :
    (humidityStage h s).irrigation = s.irrigation ++
      (if h > 80 then []
       else if h < 30 then ["Low humidity may increase water needs"]
       else []) := by
  simp only [humidityStage]
  split_ifs <;> simp

theorem humidityStage_immediate (h : ℚ) (s : Suggestions) :
    (humidityStage h s).immediate_actions = s.immediate_actions := by
  simp only [humidityStage]
  split_ifs <;> rfl

theorem humidityStage_weekly (h : ℚ) (s : Suggestions) :
    (humidityStage h s).weekly_planning = s.weekly_planning := by
  simp only [humidityStage]
  split_ifs <;> rfl

theorem conditionStage_immediate (d : String) (s : Suggestions) :
    (conditionStage d s).immediate_actions = s.immediate_actions ++
      (if pyIn "rain" d then ["Postpone irrigation - natural rainfall occurring"]
       else []) := by
  simp only [conditionStage]
  split_ifs <;> simp

theorem conditionStage_crop (d : String) (s : Suggestions) :
    (conditionStage d s).crop_care = s.crop_care ++
      (if pyIn "rain" d then ["Check for waterlogging in low-lying areas"]
       else []) := by
  simp only [conditionStage]
  split_ifs <;> simp

theorem conditionStage_irrigation (d : String) (s : Suggestions) :
    (conditionStage d s).irrigation = s.irrigation ++
      (if pyIn "rain" d then []
       else if pyIn "clear" d || pyIn "sunny" d then
        ["Good conditions for watering early morning or evening"]
       else []) := by
  simp only [conditionStage]
  split_ifs <;> simp

theorem conditionStage_weekly (d : String) (s : Suggestions) :
    (conditionStage d s).weekly_planning = s.weekly_planning ++
      (if pyIn "rain" d then []
       else if pyIn "clear" d || pyIn "sunny" d then
        ["Ideal weather for field work and harvesting"]
       else []) := by
  simp only [conditionStage]
  split_ifs <;> simp

theorem conditionStage_pest (d : String) (s : Suggestions) :
    (conditionStage d s).pest_disease_alerts = s.pest_disease_alerts := by
  simp only [conditionStage]
  split_ifs <;> rfl

theorem windStage_immediate (w : ℚ) (s : Suggestions) :
    (windStage w s).immediate_actions = s.immediate_actions ++
      (if w > 10 then ["Secure tall plants and check for wind damage"] else []) := by
  simp only [windStage]
  split_ifs <;> simp

theorem windStage_crop (w : ℚ) (s : Suggestions) :
    (windStage w s).crop_care = s.crop_care ++
      (if w > 10 then
        ["Avoid spraying pesticides or fertilizers in windy conditions"]
       else []) := by
  simp only [windStage]
  split_ifs <;> simp

theorem windStage_weekly (w : ℚ) (s : Suggestions) :
    (windStage w s).weekly_planning = s.weekly_planning := by
  simp only [windStage]
  split_ifs <;> rfl

theorem windStage_irrigation (w : ℚ) (s : Suggestions) :
    (windStage w s).irrigation = s.irrigation := by
  simp only [windStage]
  split_ifs <;> rfl

theorem windStage_pest (w : ℚ) (s : Suggestions) :
    (windStage w s).pest_disease_alerts = s.pest_disease_alerts := by
  simp only [windStage]
  split_ifs <;> rfl

theorem forecastStage_weekly (t : ℚ) (fs : SummaryResult) (s : Suggestions) :
    (forecastStage t fs s).weekly_planning = s.weekly_planning ++
      (if fs.truthy then
        (if ((fs.toList.take 3).map DailySummary.total_rain).sum > 10 then
          ["Heavy rain expected - prepare drainage and postpone outdoor activities"]
         else []) ++
        (if ((fs.toList.take 3).map DailySummary.max_temp).sum /
            ((fs.toList.take 3).length : ℚ) > t + 5 then
          ["Temperature rising - prepare for increased water needs"]
         else if ((fs.toList.take 3).map DailySummary.max_temp).sum /
            ((fs.toList.take 3).length : ℚ) < t - 5 then
          ["Temperature dropping - protect sensitive crops"]
         else [])
       else []) := by
  simp only [forecastStage]
  split_ifs <;> simp

theorem forecastStage_irrigation (t : ℚ) (fs : SummaryResult) (s : Suggestions) :
    (forecastStage t fs s).irrigation = s.irrigation ++
      (if fs.truthy then
        (if ((fs.toList.take 3).map DailySummary.total_rain).sum > 10 then
          ["Reduce watering schedule due to expected rainfall"]
         else if ((fs.toList.take 3).map DailySummary.total_rain).sum < 1 then
          ["No rain expected - maintain regular watering schedule"]
         else [])
       else []) := by
  simp only [forecastStage]
  split_ifs <;> simp

theorem forecastStage_immediate (t : ℚ) (fs : SummaryResult) (s : Suggestions) :
    (forecastStage t fs s).immediate_actions = s.immediate_actions := by
  simp only [forecastStage]
  split_ifs <;> rfl

theorem forecastStage_crop (t : ℚ) (fs : SummaryResult) (s : Suggestions) :
    (forecastStage t fs s).crop_care = s.crop_care := by
  simp only [forecastStage]
  split_ifs <;> rfl

theorem forecastStage_pest (t : ℚ) (fs : SummaryResult) (s : Suggestions) :
    (forecastStage t fs s).pest_disease_alerts = s.pest_disease_alerts := by
  simp only [forecastStage]
  split_ifs <;> rfl

theorem seasonStage_crop (m : Nat) (s : Suggestions) :
    (seasonStage m s).crop_care = s.crop_care ++
      (if m = 12 || m = 1 || m = 2 then
        ["Winter season - focus on cold-hardy crops and protection"]
       else []) := by
  simp only [seasonStage]
  split_ifs <;> simp

theorem seasonStage_weekly (m : Nat) (s : Suggestions) :
    (seasonStage m s).weekly_planning = s.weekly_planning ++
      (if m = 12 || m = 1 || m = 2 then []
       else if m = 3 || m = 4 || m = 5 then
        ["Spring season - ideal time for planting and soil preparation"]
       else if m = 6 || m = 7 || m = 8 then []
       else if m = 9 || m = 10 || m = 11 then
        ["Fall season - harvest time and winter preparation"]
       else []) := by
  simp only [seasonStage]
  split_ifs <;> simp

theorem seasonStage_irrigation (m : Nat) (s : Suggestions) :
    (seasonStage m s).irrigation = s.irrigation ++
      (if m = 12 || m = 1 || m = 2 then []
       else if m = 3 || m = 4 || m = 5 then []
       else if m = 6 || m = 7 || m = 8 then
        ["Summer season - maintain consistent watering and mulching"]
       else []) := by
  simp only [seasonStage]
  split_ifs <;> simp

theorem seasonStage_immediate (m : Nat) (s : Suggestions) :
    (seasonStage m s).immediate_actions = s.immediate_actions := by
  simp only [seasonStage]
  split_ifs <;> rfl

theorem seasonStage_pest (m : Nat) (s : Suggestions) :
    (seasonStage m s).pest_disease_alerts = s.pest_disease_alerts := by
  simp only [seasonStage]
  split_ifs <;> rfl

/-! ## The engine's category lists in closed form -/

theorem engine_immediate (cw : CurrentWeather) (forecast : List FormattedItem)
    (clock : Clock) :
    (generate_agricultural_suggestions cw forecast clock).immediate_actions =
      (if cw.temperature < 5 then ["Protect sensitive crops from frost damage"]
       else if cw.temperature > 35 then
        ["Provide shade for sensitive crops during peak heat"]
       else []) ++
      (if pyIn "rain" (pyLower cw.description) then
        ["Postpone irrigation - natural rainfall occurring"]
       else []) ++
      (if cw.wind_speed > 10 then
        ["Secure tall plants and check for wind damage"]
       else []) := by
  unfold generate_agricultural_suggestions
  rw [seasonStage_immediate, forecastStage_immediate, windStage_immediate,
    conditionStage_immediate, humidityStage_immediate, temperatureStage_immediate]
  simp [emptySuggestions]

theorem engine_pest (cw : CurrentWeather) (forecast : List FormattedItem)
    (clock : Clock) :
    (generate_agricultural_suggestions cw forecast clock).pest_disease_alerts =
      (if cw.humidity > 80 then
        ["High humidity increases fungal disease risk - monitor crops closely"]
       else []) := by
  unfold generate_agricultural_suggestions
  rw [seasonStage_pest, forecastStage_pest, windStage_pest,
    conditionStage_pest, humidityStage_pest, temperatureStage_pest]
  simp [emptySuggestions]

theorem engine_crop (cw : CurrentWeather) (forecast : List FormattedItem)
    (clock : Clock) :
    (generate_agricultural_suggestions cw forecast clock).crop_care =
      (if cw.temperature < 5 then
        ["Consider covering young plants or moving potted plants indoors"]
       else []) ++
      (if cw.humidity > 80 then ["Ensure good air circulation around plants"]
       else []) ++
      (if pyIn "rain" (pyLower cw.description) then
        ["Check for waterlogging in low-lying areas"]
       else []) ++
      (if cw.wind_speed > 10 then
        ["Avoid spraying pesticides or fertilizers in windy conditions"]
       else []) ++
      (if clock.month = 12 || clock.month = 1 || clock.month = 2 then
        ["Winter season - focus on cold-hardy crops and protection"]
       else []) := by
  unfold generate_agricultural_suggestions
  rw [seasonStage_crop, forecastStage_crop, windStage_crop,
    conditionStage_crop, humidityStage_crop, temperatureStage_crop]
  simp [emptySuggestions]

theorem engine_weekly (cw : CurrentWeather) (forecast : List FormattedItem)
    (clock : Clock) :
    (generate_agricultural_suggestions cw forecast clock).weekly_planning =
      (if pyIn "rain" (pyLower cw.description) then []
       else if pyIn "clear" (pyLower cw.description) ||
          pyIn "sunny" (pyLower cw.description) then
        ["Ideal weather for field work and harvesting"]
       else []) ++
      (if (get_forecast_summary forecast).truthy then
        (if (((get_forecast_summary forecast).toList.take 3).map
            DailySummary.total_rain).sum > 10 then
          ["Heavy rain expected - prepare drainage and postpone outdoor activities"]
         else []) ++
        (if (((get_forecast_summary forecast).toList.take 3).map
            DailySummary.max_temp).sum /
            (((get_forecast_summary forecast).toList.take 3).length : ℚ) >
            cw.temperature + 5 then
          ["Temperature rising - prepare for increased water needs"]
         else if (((get_forecast_summary forecast).toList.take 3).map
            DailySummary.max_temp).sum /
            (((get_forecast_summary forecast).toList.take 3).length : ℚ) <
            cw.temperature - 5 then
          ["Temperature dropping - protect sensitive crops"]
         else [])
       else []) ++
      (if clock.month = 12 || clock.month = 1 || clock.month = 2 then []
       else if clock.month = 3 || clock.month = 4 || clock.month = 5 then
        ["Spring season - ideal time for planting and soil preparation"]
       else if clock.month = 6 || clock.month = 7 || clock.month = 8 then []
       else if clock.month = 9 || clock.month = 10 || clock.month = 11 then
        ["Fall season - harvest time and winter preparation"]
       else []) := by
  unfold generate_agricultural_suggestions
  rw [seasonStage_weekly, forecastStage_weekly, windStage_weekly]
  rw [conditionStage_weekly, humidityStage_weekly, temperatureStage_weekly]
  simp [emptySuggestions]

theorem engine_irrigation (cw : CurrentWeather) (forecast : List FormattedItem)
    (clock : Clock) :
    (generate_agricultural_suggestions cw forecast clock).irrigation =
      (if cw.temperature < 5 then []
       else if cw.temperature > 35 then
        ["Increase watering frequency due to high temperatures"]
       else []) ++
      (if cw.humidity > 80 then []
       else if cw.humidity < 30 then ["Low humidity may increase water needs"]
       else []) ++
      (if pyIn "rain" (pyLower cw.description) then []
       else if pyIn "clear" (pyLower cw.description) ||
          pyIn "sunny" (pyLower cw.description) then
        ["Good conditions for watering early morning or evening"]
       else []) ++
      (if (get_forecast_summary forecast).truthy then
        (if (((get_forecast_summary forecast).toList.take 3).map
            DailySummary.total_rain).sum > 10 then
          ["Reduce watering schedule due to expected rainfall"]
         else if (((get_forecast_summary forecast).toList.take 3).map
            DailySummary.total_rain).sum < 1 then
          ["No rain expected - maintain regular watering schedule"]
         else [])
       else []) ++
      (if clock.month = 12 || clock.month = 1 || clock.month = 2 then []
       else if clock.month = 3 || clock.month = 4 || clock.month = 5 then []
       else if clock.month = 6 || clock.month = 7 || clock.month = 8 then
        ["Summer season - maintain consistent watering and mulching"]
       else []) := by
  unfold generate_agricultural_suggestions
  rw [seasonStage_irrigation, forecastStage_irrigation, windStage_irrigation]
  rw [conditionStage_irrigation, humidityStage_irrigation, temperatureStage_irrigation]
  simp [emptySuggestions]

/-- C5: the temperature and humidity rule groups use strict inequalities
and are internally mutually exclusive: at `temperature = 5` or `35`
neither temperature branch fires, at `humidity = 80` or `30` neither
humidity branch fires, and at `temperature = 3` the frost items appear
and the heat items never do, whatever the other inputs are. -/
theorem C5_strict_thresholds_exclusive (cw : CurrentWeather)
    (forecast : List FormattedItem) (clock : Clock) :
    ((cw.temperature = 5 ∨ cw.temperature = 35) →
      "Protect sensitive crops from frost damage" ∉
        (generate_agricultural_suggestions cw forecast clock).immediate_actions ∧
      "Consider covering young plants or moving potted plants indoors" ∉
        (generate_agricultural_suggestions cw forecast clock).crop_care ∧
      "Provide shade for sensitive crops during peak heat" ∉
        (generate_agricultural_suggestions cw forecast clock).immediate_actions ∧
      "Increase watering frequency due to high temperatures" ∉
        (generate_agricultural_suggestions cw forecast clock).irrigation) ∧
    ((cw.humidity = 80 ∨ cw.humidity = 30) →
      "High humidity increases fungal disease risk - monitor crops closely" ∉
        (generate_agricultural_suggestions cw forecast clock).pest_disease_alerts ∧
      "Ensure good air circulation around plants" ∉
        (generate_agricultural_suggestions cw forecast clock).crop_care ∧
      "Low humidity may increase water needs" ∉
        (generate_agricultural_suggestions cw forecast clock).irrigation) ∧
    (cw.temperature = 3 →
      "Protect sensitive crops from frost damage" ∈
        (generate_agricultural_suggestions cw forecast clock).immediate_actions ∧
      "Consider covering young plants or moving potted plants indoors" ∈
        (generate_agricultural_suggestions cw forecast clock).crop_care ∧
      "Provide shade for sensitive crops during peak heat" ∉
        (generate_agricultural_suggestions cw forecast clock).immediate_actions ∧
      "Increase watering frequency due to high temperatures" ∉
        (generate_agricultural_suggestions cw forecast clock).irrigation) := by
  refine ⟨?_, ?_, ?_⟩
  · intro h
    refine ⟨?_, ?_, ?_, ?_⟩ <;>
      [rw [engine_immediate]; rw [engine_crop]; rw [engine_immediate];
       rw [engine_irrigation]] <;>
      rcases h with h | h <;> rw [h] <;> norm_num <;> (try simp) <;> (try intro _) <;> (try split_ifs) <;> (try decide)
  · intro h
    refine ⟨?_, ?_, ?_⟩ <;>
      [rw [engine_pest]; rw [engine_crop]; rw [engine_irrigation]] <;>
      rcases h with h | h <;> rw [h] <;> norm_num <;> (try simp) <;> (try intro _) <;> (try split_ifs) <;> (try decide)
  · intro h
    refine ⟨?_, ?_, ?_, ?_⟩ <;>
      [rw [engine_immediate]; rw [engine_crop]; rw [engine_immediate];
       rw [engine_irrigation]] <;>
      rw [h] <;> norm_num <;> (try simp) <;> (try intro _) <;> (try split_ifs) <;> (try decide)

/-- C6: over the first 3 daily summaries, a rain sum strictly above 10
yields the heavy-rain planning item and the reduced-irrigation tip, a
sum strictly below 1 yields the no-rain tip, a sum in [1,10] yields none
of them; on an empty forecast the whole group is skipped (the engine
equals the pipeline without the forecast stage) and the trend divisor is
nonzero whenever the group runs. -/
theorem C6_forecast_rain_planning (cw : CurrentWeather)
    (forecast : List FormattedItem) (clock : Clock) :
    ((get_forecast_summary forecast).truthy = true →
      ((((get_forecast_summary forecast).toList.take 3).map
          DailySummary.total_rain).sum > 10 →
        "Heavy rain expected - prepare drainage and postpone outdoor activities" ∈
          (generate_agricultural_suggestions cw forecast clock).weekly_planning ∧
        "Reduce watering schedule due to expected rainfall" ∈
          (generate_agricultural_suggestions cw forecast clock).irrigation ∧
        "No rain expected - maintain regular watering schedule" ∉
          (generate_agricultural_suggestions cw forecast clock).irrigation) ∧
      ((((get_forecast_summary forecast).toList.take 3).map
          DailySummary.total_rain).sum < 1 →
        "No rain expected - maintain regular watering schedule" ∈
          (generate_agricultural_suggestions cw forecast clock).irrigation ∧
        "Heavy rain expected - prepare drainage and postpone outdoor activities" ∉
          (generate_agricultural_suggestions cw forecast clock).weekly_planning ∧
        "Reduce watering schedule due to expected rainfall" ∉
          (generate_agricultural_suggestions cw forecast clock).irrigation) ∧
      (1 ≤ (((get_forecast_summary forecast).toList.take 3).map
          DailySummary.total_rain).sum →
        (((get_forecast_summary forecast).toList.take 3).map
          DailySummary.total_rain).sum ≤ 10 →
        "Heavy rain expected - prepare drainage and postpone outdoor activities" ∉
          (generate_agricultural_suggestions cw forecast clock).weekly_planning ∧
        "Reduce watering schedule due to expected rainfall" ∉
          (generate_agricultural_suggestions cw forecast clock).irrigation ∧
        "No rain expected - maintain regular watering schedule" ∉
          (generate_agricultural_suggestions cw forecast clock).irrigation)) ∧
    (forecast = [] →
      generate_agricultural_suggestions cw forecast clock =
        seasonStage clock.month
          (windStage cw.wind_speed
            (conditionStage (pyLower cw.description)
              (humidityStage cw.humidity
                (temperatureStage cw.temperature emptySuggestions))))) ∧
    ((get_forecast_summary forecast).truthy = true →
      (((get_forecast_summary forecast).toList.take 3).length : ℚ) ≠ 0) := by
  refine ⟨?_, ?_, ?_⟩
  · intro ht
    refine ⟨?_, ?_, ?_⟩
    · intro hsum
      refine ⟨?_, ?_, ?_⟩ <;>
        [rw [engine_weekly]; rw [engine_irrigation]; rw [engine_irrigation]] <;>
        rw [if_pos ht, if_pos hsum] <;> (try simp) <;> (try intro _) <;>
        (try split_ifs) <;> (try simp) <;> (try decide)
    · intro hsum
      have h10 : ¬ (((get_forecast_summary forecast).toList.take 3).map
          DailySummary.total_rain).sum > 10 := by
        intro hgt
        linarith
      refine ⟨?_, ?_, ?_⟩ <;>
        [rw [engine_irrigation]; rw [engine_weekly]; rw [engine_irrigation]] <;>
        rw [if_pos ht, if_neg h10] <;> (try rw [if_pos hsum]) <;> (try simp) <;>
        (try intro _) <;> (try split_ifs) <;> (try simp) <;> (try decide)
    · intro hge hle
      have h10 : ¬ (((get_forecast_summary forecast).toList.take 3).map
          DailySummary.total_rain).sum > 10 := not_lt.mpr hle
      have h1 : ¬ (((get_forecast_summary forecast).toList.take 3).map
          DailySummary.total_rain).sum < 1 := not_lt.mpr hge
      refine ⟨?_, ?_, ?_⟩ <;>
        [rw [engine_weekly]; rw [engine_irrigation]; rw [engine_irrigation]] <;>
        rw [if_pos ht, if_neg h10] <;> (try rw [if_neg h1]) <;> (try simp) <;>
        (try intro _) <;> (try split_ifs) <;> (try simp) <;> (try decide)
  · intro h
    rw [h]
    unfold generate_agricultural_suggestions
    rw [show get_forecast_summary ([] : List FormattedItem) =
      SummaryResult.emptyDict from rfl]
    simp [forecastStage, SummaryResult.truthy]
  · intro ht
    cases hfs : get_forecast_summary forecast with
    | emptyDict =>
        rw [hfs] at ht
        simp [SummaryResult.truthy] at ht
    | summaries l =>
        rw [hfs] at ht
        cases l with
        | nil => simp [SummaryResult.truthy] at ht
        | cons a t =>
            show ((((SummaryResult.summaries (a :: t)).toList.take 3).length : ℕ) : ℚ) ≠ 0
            rw [show (SummaryResult.summaries (a :: t)).toList = a :: t from rfl]
            rw [Nat.cast_ne_zero]
            simp [List.length_take]

/-! ## Required fields of the normalizer -/

/-- The fields `_format_forecast_data` reads unconditionally from one
forecast entry (every one of them raises `KeyError` when absent). -/
def forecastItemRequired (item : RawForecastItem) : Prop :=
  item.dt.isSome = true ∧
  (item.main.bind RawMain.temp).isSome = true ∧
  (item.main.bind RawMain.feels_like).isSome = true ∧
  (item.main.bind RawMain.humidity).isSome = true ∧
  (item.main.bind RawMain.pressure).isSome = true ∧
  ((rawWeatherHead item.weather).bind RawWeatherEntry.description).isSome = true ∧
  ((rawWeatherHead item.weather).bind RawWeatherEntry.main).isSome = true ∧
  ((rawWeatherHead item.weather).bind RawWeatherEntry.icon).isSome = true ∧
  item.wind.isSome = true ∧
  (item.wind.bind RawWind.speed).isSome = true

/-- The fields `_format_current_weather` reads unconditionally. -/
def currentRequired (data : RawCurrent) : Prop :=
  (data.main.bind RawMain.temp).isSome = true ∧
  (data.main.bind RawMain.feels_like).isSome = true ∧
  (data.main.bind RawMain.humidity).isSome = true ∧
  (data.main.bind RawMain.pressure).isSome = true ∧
  ((rawWeatherHead data.weather).bind RawWeatherEntry.description).isSome = true ∧
  ((rawWeatherHead data.weather).bind RawWeatherEntry.main).isSome = true ∧
  ((rawWeatherHead data.weather).bind RawWeatherEntry.icon).isSome = true ∧
  data.wind.isSome = true ∧
  (data.wind.bind RawWind.speed).isSome = true ∧
  data.name.isSome = true ∧
  (data.sys.bind RawSys.country).isSome = true ∧
  (data.sys.bind RawSys.sunrise).isSome = true ∧
  (data.sys.bind RawSys.sunset).isSome = true ∧
  data.dt.isSome = true

/-- A raw forecast entry with the claim's three required fields (and
everything else except `wind`) present. -/
def c3item : RawForecastItem :=
  { dt := some 0
    main := some { temp := some 20, feels_like := some 19,
                   humidity := some 50, pressure := some 1000 }
    weather := some [{ main := some "Rain", description := some "light rain",
                       icon := some "10d" }]
    wind := none
    pop := some (1 / 2)
    rain := some { h3 := some 1 }
    snow := some { h3 := some 1 } }

/-- C3 counterexample: an entry with `main.temp`, `weather[0].main` and
the timestamp present (only `wind` absent) on which normalization still
fails — `data['wind']['speed']` raises, so the claimed required-field
set and the claimed never-raises guarantee are both wrong. -/
theorem C3_counterexample_wind_required :
    format_forecast_item c3item = none ∧
    c3item.dt.isSome = true ∧
    (c3item.main.bind RawMain.temp).isSome = true ∧
    ((rawWeatherHead c3item.weather).bind RawWeatherEntry.main).isSome = true :=
  ⟨rfl, rfl, rfl, rfl⟩

theorem format_forecast_item_isSome_iff (item : RawForecastItem) :
    (format_forecast_item item).isSome = true ↔ forecastItemRequired item := by
  constructor
  · intro h
    unfold format_forecast_item at h
    cases h1 : item.dt with
    | none => rw [h1] at h; simp at h
    | some dt =>
    rw [h1] at h
    cases h2 : item.main.bind RawMain.temp with
    | none => rw [h2] at h; simp at h
    | some temp =>
    rw [h2] at h
    cases h3 : item.main.bind RawMain.feels_like with
    | none => rw [h3] at h; simp at h
    | some feels =>
    rw [h3] at h
    cases h4 : item.main.bind RawMain.humidity with
    | none => rw [h4] at h; simp at h
    | some hum =>
    rw [h4] at h
    cases h5 : item.main.bind RawMain.pressure with
    | none => rw [h5] at h; simp at h
    | some pres =>
    rw [h5] at h
    cases h6 : (rawWeatherHead item.weather).bind RawWeatherEntry.description with
    | none => rw [h6] at h; simp at h
    | some desc =>
    rw [h6] at h
    cases h7 : (rawWeatherHead item.weather).bind RawWeatherEntry.main with
    | none => rw [h7] at h; simp at h
    | some mainc =>
    rw [h7] at h
    cases h8 : (rawWeatherHead item.weather).bind RawWeatherEntry.icon with
    | none => rw [h8] at h; simp at h
    | some icon =>
    rw [h8] at h
    cases h9 : item.wind with
    | none => rw [h9] at h; simp at h
    | some wind =>
    rw [h9] at h
    rw [show (some wind).bind RawWind.speed = wind.speed from rfl] at h
    cases h10 : wind.speed with
    | none => rw [h10] at h; simp at h
    | some ws =>
    refine ⟨by rw [h1]; rfl, by rw [h2]; rfl, by rw [h3]; rfl, by rw [h4]; rfl,
      by rw [h5]; rfl, by rw [h6]; rfl, by rw [h7]; rfl, by rw [h8]; rfl,
      by rw [h9]; rfl, ?_⟩
    rw [h9]
    show (wind.speed).isSome = true
    rw [h10]
    rfl
  · intro hreq
    obtain ⟨h1, h2, h3, h4, h5, h6, h7, h8, h9, h10⟩ := hreq
    obtain ⟨dt, h1⟩ := Option.isSome_iff_exists.mp h1
    obtain ⟨temp, h2⟩ := Option.isSome_iff_exists.mp h2
    obtain ⟨feels, h3⟩ := Option.isSome_iff_exists.mp h3
    obtain ⟨hum, h4⟩ := Option.isSome_iff_exists.mp h4
    obtain ⟨pres, h5⟩ := Option.isSome_iff_exists.mp h5
    obtain ⟨desc, h6⟩ := Option.isSome_iff_exists.mp h6
    obtain ⟨mainc, h7⟩ := Option.isSome_iff_exists.mp h7
    obtain ⟨icon, h8⟩ := Option.isSome_iff_exists.mp h8
    obtain ⟨wind, h9⟩ := Option.isSome_iff_exists.mp h9
    obtain ⟨ws, h10⟩ := Option.isSome_iff_exists.mp h10
    unfold format_forecast_item
    rw [h1, h2, h3, h4, h5, h6, h7, h8, h10, h9]
    rfl

theorem format_current_weather_isSome_iff (data : RawCurrent) :
    (format_current_weather data).isSome = true ↔ currentRequired data := by
  constructor
  · intro h
    unfold format_current_weather at h
    cases h1 : data.main.bind RawMain.temp with
    | none => rw [h1] at h; simp at h
    | some temp =>
    rw [h1] at h
    cases h2 : data.main.bind RawMain.feels_like with
    | none => rw [h2] at h; simp at h
    | some feels =>
    rw [h2] at h
    cases h3 : data.main.bind RawMain.humidity with
    | none => rw [h3] at h; simp at h
    | some hum =>
    rw [h3] at h
    cases h4 : data.main.bind RawMain.pressure with
    | none => rw [h4] at h; simp at h
    | some pres =>
    rw [h4] at h
    cases h5 : (rawWeatherHead data.weather).bind RawWeatherEntry.description with
    | none => rw [h5] at h; simp at h
    | some desc =>
    rw [h5] at h
    cases h6 : (rawWeatherHead data.weather).bind RawWeatherEntry.main with
    | none => rw [h6] at h; simp at h
    | some mainc =>
    rw [h6] at h
    cases h7 : (rawWeatherHead data.weather).bind RawWeatherEntry.icon with
    | none => rw [h7] at h; simp at h
    | some icon =>
    rw [h7] at h
    cases h8 : data.wind with
    | none => rw [h8] at h; simp at h
    | some wind =>
    rw [h8] at h
    rw [show (some wind).bind RawWind.speed = wind.speed from rfl] at h
    cases h9 : wind.speed with
    | none => rw [h9] at h; simp at h
    | some ws =>
    rw [h9] at h
    cases h10 : data.name with
    | none => rw [h10] at h; simp at h
    | some name =>
    rw [h10] at h
    cases h11 : data.sys.bind RawSys.country with
    | none => rw [h11] at h; simp at h
    | some country =>
    rw [h11] at h
    cases h12 : data.sys.bind RawSys.sunrise with
    | none => rw [h12] at h; simp at h
    | some sunrise =>
    rw [h12] at h
    cases h13 : data.sys.bind RawSys.sunset with
    | none => rw [h13] at h; simp at h
    | some sunset =>
    rw [h13] at h
    cases h14 : data.dt with
    | none => rw [h14] at h; simp at h
    | some dt =>
    refine ⟨by rw [h1]; rfl, by rw [h2]; rfl, by rw [h3]; rfl, by rw [h4]; rfl,
      by rw [h5]; rfl, by rw [h6]; rfl, by rw [h7]; rfl, by rw [h8]; rfl, ?_,
      by rw [h10]; rfl, by rw [h11]; rfl, by rw [h12]; rfl, by rw [h13]; rfl,
      by rw [h14]; rfl⟩
    rw [h8]
    show (wind.speed).isSome = true
    rw [h9]
    rfl
  · intro hreq
    obtain ⟨h1, h2, h3, h4, h5, h6, h7, h8, h9, h10, h11, h12, h13, h14⟩ := hreq
    obtain ⟨temp, h1⟩ := Option.isSome_iff_exists.mp h1
    obtain ⟨feels, h2⟩ := Option.isSome_iff_exists.mp h2
    obtain ⟨hum, h3⟩ := Option.isSome_iff_exists.mp h3
    obtain ⟨pres, h4⟩ := Option.isSome_iff_exists.mp h4
    obtain ⟨desc, h5⟩ := Option.isSome_iff_exists.mp h5
    obtain ⟨mainc, h6⟩ := Option.isSome_iff_exists.mp h6
    obtain ⟨icon, h7⟩ := Option.isSome_iff_exists.mp h7
    obtain ⟨wind, h8⟩ := Option.isSome_iff_exists.mp h8
    obtain ⟨ws, h9⟩ := Option.isSome_iff_exists.mp h9
    obtain ⟨name, h10⟩ := Option.isSome_iff_exists.mp h10
    obtain ⟨country, h11⟩ := Option.isSome_iff_exists.mp h11
    obtain ⟨sunrise, h12⟩ := Option.isSome_iff_exists.mp h12
    obtain ⟨sunset, h13⟩ := Option.isSome_iff_exists.mp h13
    obtain ⟨dt, h14⟩ := Option.isSome_iff_exists.mp h14
    unfold format_current_weather
    rw [h1, h2, h3, h4, h5, h6, h7, h9, h8, h10, h11, h12, h13, h14]
    rfl

theorem format_forecast_item_defaults (item : RawForecastItem) (fi : FormattedItem)
    (hfi : format_forecast_item item = some fi) :
    (item.wind.bind RawWind.deg = none → fi.wind_direction = 0) ∧
    (∀ v, item.wind.bind RawWind.deg = some v → fi.wind_direction = v) ∧
    (item.rain.bind RawVolume.h3 = none → fi.rain = 0) ∧
    (∀ v, item.rain.bind RawVolume.h3 = some v → fi.rain = v) ∧
    (item.snow.bind RawVolume.h3 = none → fi.snow = 0) ∧
    (item.pop = none → fi.precipitation_probability = 0) ∧
    (∀ p, item.pop = some p → fi.precipitation_probability = p * 100) := by
  have hreq := (format_forecast_item_isSome_iff item).mp (by rw [hfi]; rfl)
  obtain ⟨h1, h2, h3, h4, h5, h6, h7, h8, h9, h10⟩ := hreq
  obtain ⟨dt, h1⟩ := Option.isSome_iff_exists.mp h1
  obtain ⟨temp, h2⟩ := Option.isSome_iff_exists.mp h2
  obtain ⟨feels, h3⟩ := Option.isSome_iff_exists.mp h3
  obtain ⟨hum, h4⟩ := Option.isSome_iff_exists.mp h4
  obtain ⟨pres, h5⟩ := Option.isSome_iff_exists.mp h5
  obtain ⟨desc, h6⟩ := Option.isSome_iff_exists.mp h6
  obtain ⟨mainc, h7⟩ := Option.isSome_iff_exists.mp h7
  obtain ⟨icon, h8⟩ := Option.isSome_iff_exists.mp h8
  obtain ⟨wind, h9⟩ := Option.isSome_iff_exists.mp h9
  obtain ⟨ws, h10⟩ := Option.isSome_iff_exists.mp h10
  unfold format_forecast_item at hfi
  rw [h1, h2, h3, h4, h5, h6, h7, h8, h10, h9] at hfi
  simp only [Option.some.injEq] at hfi
  subst hfi
  refine ⟨?_, ?_, ?_, ?_, ?_, ?_, ?_⟩
  · intro hdeg
    rw [h9] at hdeg
    rw [show (some wind).bind RawWind.deg = wind.deg from rfl] at hdeg
    show wind.deg.getD 0 = 0
    rw [hdeg]
    rfl
  · intro v hdeg
    rw [h9] at hdeg
    rw [show (some wind).bind RawWind.deg = wind.deg from rfl] at hdeg
    show wind.deg.getD 0 = v
    rw [hdeg]
    rfl
  · intro hr
    cases hri : item.rain with
    | none => rfl
    | some r =>
        rw [hri] at hr
        rw [show (some r).bind RawVolume.h3 = r.h3 from rfl] at hr
        show (r.h3.getD 0 : ℚ) = 0
        rw [hr]
        rfl
  · intro v hr
    cases hri : item.rain with
    | none => rw [hri] at hr; simp at hr
    | some r =>
        rw [hri] at hr
        rw [show (some r).bind RawVolume.h3 = r.h3 from rfl] at hr
        show (r.h3.getD 0 : ℚ) = v
        rw [hr]
        rfl
  · intro hsnow
    cases hsi : item.snow with
    | none => rfl
    | some r =>
        rw [hsi] at hsnow
        rw [show (some r).bind RawVolume.h3 = r.h3 from rfl] at hsnow
        show (r.h3.getD 0 : ℚ) = 0
        rw [hsnow]
        rfl
  · intro hp
    show item.pop.getD 0 * 100 = 0
    rw [hp]
    simp
  · intro p hp
    show item.pop.getD 0 * 100 = p * 100
    rw [hp]
    rfl

theorem format_current_weather_defaults (data : RawCurrent) (cwr : CurrentWeather)
    (hc : format_current_weather data = some cwr) :
    (data.wind.bind RawWind.deg = none → cwr.wind_direction = 0) ∧
    (∀ v, data.wind.bind RawWind.deg = some v → cwr.wind_direction = v) ∧
    (data.visibility = none → cwr.visibility = 0) ∧
    (∀ v, data.visibility = some v → cwr.visibility = v / 1000) ∧
    (data.uvi = none → cwr.uv_index = 0) := by
  have hreq := (format_current_weather_isSome_iff data).mp (by rw [hc]; rfl)
  obtain ⟨h1, h2, h3, h4, h5, h6, h7, h8, h9, h10, h11, h12, h13, h14⟩ := hreq
  obtain ⟨temp, h1⟩ := Option.isSome_iff_exists.mp h1
  obtain ⟨feels, h2⟩ := Option.isSome_iff_exists.mp h2
  obtain ⟨hum, h3⟩ := Option.isSome_iff_exists.mp h3
  obtain ⟨pres, h4⟩ := Option.isSome_iff_exists.mp h4
  obtain ⟨desc, h5⟩ := Option.isSome_iff_exists.mp h5
  obtain ⟨mainc, h6⟩ := Option.isSome_iff_exists.mp h6
  obtain ⟨icon, h7⟩ := Option.isSome_iff_exists.mp h7
  obtain ⟨wind, h8⟩ := Option.isSome_iff_exists.mp h8
  obtain ⟨ws, h9⟩ := Option.isSome_iff_exists.mp h9
  obtain ⟨name, h10⟩ := Option.isSome_iff_exists.mp h10
  obtain ⟨country, h11⟩ := Option.isSome_iff_exists.mp h11
  obtain ⟨sunrise, h12⟩ := Option.isSome_iff_exists.mp h12
  obtain ⟨sunset, h13⟩ := Option.isSome_iff_exists.mp h13
  obtain ⟨dt, h14⟩ := Option.isSome_iff_exists.mp h14
  unfold format_current_weather at hc
  rw [h1, h2, h3, h4, h5, h6, h7, h9, h8, h10, h11, h12, h13, h14] at hc
  simp only [Option.some.injEq] at hc
  subst hc
  refine ⟨?_, ?_, ?_, ?_, ?_⟩
  · intro hdeg
    rw [h8] at hdeg
    rw [show (some wind).bind RawWind.deg = wind.deg from rfl] at hdeg
    show wind.deg.getD 0 = 0
    rw [hdeg]
    rfl
  · intro v hdeg
    rw [h8] at hdeg
    rw [show (some wind).bind RawWind.deg = wind.deg from rfl] at hdeg
    show wind.deg.getD 0 = v
    rw [hdeg]
    rfl
  · intro hv
    show data.visibility.getD 0 / 1000 = 0
    rw [hv]
    simp
  · intro v hv
    show data.visibility.getD 0 / 1000 = v / 1000
    rw [hv]
    rfl
  · intro hu
    show data.uvi.getD 0 = 0
    rw [hu]
    rfl

/-- C3 amended: normalization succeeds exactly when every field the
source reads unconditionally is present — for a forecast entry these are
the timestamp, all four `main` values, all three `weather[0]` values,
`wind` and `wind.speed` (for the current observation additionally
`name`, `sys.country`, `sys.sunrise`, `sys.sunset`), not just
`main.temp`, `weather[0].main` and the timestamp; when it succeeds, the
optional fields degrade exactly as documented: missing `wind.deg`,
`rain.3h`, `snow.3h`, `pop` give 0, a present `pop` is multiplied by
100, and `visibility` defaults to 0 and is divided by 1000. -/
theorem C3_amended_required_fields_and_defaults :
    (∀ item : RawForecastItem,
      (format_forecast_item item).isSome = true ↔ forecastItemRequired item) ∧
    (∀ data : RawCurrent,
      (format_current_weather data).isSome = true ↔ currentRequired data) ∧
    (∀ (item : RawForecastItem) (fi : FormattedItem),
      format_forecast_item item = some fi →
      (item.wind.bind RawWind.deg = none → fi.wind_direction = 0) ∧
      (∀ v, item.wind.bind RawWind.deg = some v → fi.wind_direction = v) ∧
      (item.rain.bind RawVolume.h3 = none → fi.rain = 0) ∧
      (∀ v, item.rain.bind RawVolume.h3 = some v → fi.rain = v) ∧
      (item.snow.bind RawVolume.h3 = none → fi.snow = 0) ∧
      (item.pop = none → fi.precipitation_probability = 0) ∧
      (∀ p, item.pop = some p → fi.precipitation_probability = p * 100)) ∧
    (∀ (data : RawCurrent) (cwr : CurrentWeather),
      format_current_weather data = some cwr →
      (data.wind.bind RawWind.deg = none → cwr.wind_direction = 0) ∧
      (∀ v, data.wind.bind RawWind.deg = some v → cwr.wind_direction = v) ∧
      (data.visibility = none → cwr.visibility = 0) ∧
      (∀ v, data.visibility = some v → cwr.visibility = v / 1000) ∧
      (data.uvi = none → cwr.uv_index = 0)) :=
  ⟨format_forecast_item_isSome_iff, format_current_weather_isSome_iff,
   format_forecast_item_defaults, format_current_weather_defaults⟩
